import Mathlib

/-!
Verification of the hydration state engine of the water-bottle tracker.

The repository holds two revisions of the same application:
`src/unnamed/part_001` (the newer revision, with rhythm/window tracking)
and `src/src/App.tsx` (the older revision).  Both are React/TypeScript;
the tracking core is a set of pure functions over a single state record.
This file is a shallow embedding of that core:

* JavaScript numbers are modelled as rationals (`ℚ`), the standard
  idealisation (binary floats are not modelled bit-for-bit; every
  constant appearing in the source, such as `0.0001`, is taken at its
  decimal value).
* `Math.round` is `jsRound` (half-up, `⌊x + 1/2⌋`), `Math.floor` and
  `Math.ceil` are `Int.floor` / `Int.ceil`, and the JS `%` on integers
  is `Int.tmod` (truncated remainder, matching JS sign behaviour).
* Instants (`Date` values, `Date.now()`) are integers counting
  milliseconds; the local calendar is idealised to a fixed UTC-like
  offset with no DST, so the formatted date string `YYYY-MM-DD` of an
  instant `t` is in bijection with the day number `⌊t / 86400000⌋`,
  which is how a `DayKey` is represented here.
* JS objects used as string-keyed maps (`dailyLog`) are association
  lists `List (ℤ × DayEntry)`; `{...obj, [k]: v}` keeps an existing
  key's position and appends a fresh key, which `upsertLog` mirrors.
* The string action tags (`"track"`, `"extra"`, ...) are the finite
  inductive `ActionTag`.
-/

/-- Source `clamp(n, a, b)` (`src/unnamed/part_001` line 26):
`Math.max(a, Math.min(b, n))`. -/
def clamp (n a b : ℚ) : ℚ := max a (min b n)

/-- JS `Math.round`: round half toward positive infinity. -/
def jsRound (q : ℚ) : ℤ := ⌊q + 1/2⌋

/-- Source `ceilDiv(a, b)` (`src/unnamed/part_001` line 183):
`b <= 0 ? 0 : Math.ceil(a / b)`. -/
def ceilDiv (a b : ℚ) : ℚ := if b ≤ 0 then 0 else ((⌈a / b⌉ : ℤ) : ℚ)

/-- Milliseconds per minute. -/
def msPerMin : ℤ := 60000

/-- Milliseconds per day. -/
def msPerDay : ℤ := 86400000

/-- JS `Array.prototype.slice(-n)` on a list. -/
def takeLast {α : Type} (n : ℕ) (l : List α) : List α := l.drop (l.length - n)

/-- Source `dayKey(d)` (`src/unnamed/part_001` line 175) formats the
local calendar date of `d` as `YYYY-MM-DD`; under the fixed-offset
calendar idealisation two instants format equally iff they lie in the
same civil day, so the key is represented by the civil day number. -/
def dayKeyOfMs (t : ℤ) : ℤ := ⌊(t : ℚ) / (msPerDay : ℚ)⌋

/-- Source `wakeBoundaryMins(wakeMins)` (`src/unnamed/part_001`
line 187): `((Math.round(m) % 1440) + 1440) % 1440` with JS truncated
`%`. -/
def wakeBoundaryMins (wakeMins : ℚ) : ℤ :=
  (((jsRound wakeMins).tmod 1440) + 1440).tmod 1440

/-- Source `dayKeyByWake(d, wakeMins)` (`src/unnamed/part_001`
line 192): the calendar date of the instant shifted backward by the
wake boundary (`d.getTime() - boundary * 60 * 1000`). -/
def dayKeyByWake (t : ℤ) (wakeMins : ℚ) : ℤ :=
  dayKeyOfMs (t - wakeBoundaryMins wakeMins * msPerMin)

/-- Source `sleepBoundaryMins(sleepMins)` (`src/src/App.tsx` line 183):
identical arithmetic to `wakeBoundaryMins`, applied to the sleep
minute. -/
def sleepBoundaryMins (sleepMins : ℚ) : ℤ :=
  (((jsRound sleepMins).tmod 1440) + 1440).tmod 1440

/-- Source `dayKeyBySleep(d, sleepMins)` (`src/src/App.tsx` line 188):
the calendar date of the instant shifted backward by the sleep
boundary. -/
def dayKeyBySleep (t : ℤ) (sleepMins : ℚ) : ℤ :=
  dayKeyOfMs (t - sleepBoundaryMins sleepMins * msPerMin)

/-- Source `minutesSinceMidnight(d)` (`src/unnamed/part_001` line 241):
`d.getHours() * 60 + d.getMinutes()`, i.e. the minute of the local
day of the instant. -/
def minutesSinceMidnight (t : ℤ) : ℤ := (⌊(t : ℚ) / (msPerMin : ℚ)⌋) % 1440

/-- The five-point checkpoint curve of `expectedPctAt`
(`src/unnamed/part_001` lines 256-272).  The source iterates over the
literal list `[(0.25,0.3),(0.5,0.55),(0.7,0.75),(0.87,0.9),(1,1)]`
carrying the previous checkpoint, returns the linear interpolation
`prev.pct + (pct - prev.pct) * ((progress - prev.t) / span)` in the
first segment whose right endpoint is `≥ progress`, and `1` after the
loop; the fixed five-iteration loop is unrolled into nested
conditionals (the `span ? ratio : 0` guard is dead: every span is
nonzero). -/
def checkpointPct (progress : ℚ) : ℚ :=
  if progress ≤ 25/100 then 0 + (30/100 - 0) * ((progress - 0) / (25/100 - 0))
  else if progress ≤ 50/100 then
    30/100 + (55/100 - 30/100) * ((progress - 25/100) / (50/100 - 25/100))
  else if progress ≤ 70/100 then
    55/100 + (75/100 - 55/100) * ((progress - 50/100) / (70/100 - 50/100))
  else if progress ≤ 87/100 then
    75/100 + (90/100 - 75/100) * ((progress - 70/100) / (87/100 - 70/100))
  else if progress ≤ 1 then
    90/100 + (1 - 90/100) * ((progress - 87/100) / (1 - 87/100))
  else 1

/-- Core of `expectedPctAt` after `minutesSinceMidnight` has been taken
(`src/unnamed/part_001` lines 245-273, identical in `src/src/App.tsx`
lines 241-269): normalises wake and sleep, wraps a pre-wake `now` to
the next day, returns `0` at/before the wake start, `1` at/after the
sleep end, and otherwise maps the elapsed fraction of the (clamped)
window through the checkpoint curve. -/
def expectedPctAtMinutes (nowRaw : ℤ) (wakeMins sleepMins : ℚ) : ℚ :=
  let start := clamp ((jsRound wakeMins : ℤ) : ℚ) 0 1439
  let end0 := clamp ((jsRound sleepMins : ℤ) : ℚ) 0 2879
  let endv := if end0 ≤ start then end0 + 1440 else end0
  let now0 : ℚ := (nowRaw : ℚ)
  let now := if now0 < start then now0 + 1440 else now0
  if now ≤ start then 0
  else if endv ≤ now then 1
  else
    let duration := clamp (endv - start) (6 * 60) (20 * 60)
    let progress := if 0 < duration then (now - start) / duration else 1
    checkpointPct progress

/-- Source `expectedPctAt(d, wakeMins, sleepMins)`: applies the core to
the instant's minute of day. -/
def expectedPctAt (t : ℤ) (wakeMins sleepMins : ℚ) : ℚ :=
  expectedPctAtMinutes (minutesSinceMidnight t) wakeMins sleepMins

/-- Source `expectedMlAt(goalML, d, wakeMins, sleepMins)`
(`src/unnamed/part_001` line 275):
`Math.round(goalML * expectedPctAt(...))`. -/
def expectedMlAt (goalML : ℚ) (t : ℤ) (wakeMins sleepMins : ℚ) : ℚ :=
  ((jsRound (goalML * expectedPctAt t wakeMins sleepMins) : ℤ) : ℚ)

/-- The string action tags attached to mutations (`meta.action`). -/
inductive ActionTag
  | track
  | extra
  | scan
  | refill
deriving DecidableEq

/-- One per-day summary stored in `dailyLog` (`src/unnamed/part_001`
lines 519-534).  The TypeScript field `at` is a reserved word in Lean
and is spelled `atMs`.  `windowTotalsMl` appears in the TypeScript type
but is never read or written by any embedded operation and is
omitted. -/
structure DayEntry where
  consumedML : ℚ
  goalML : ℚ
  bottleML : ℚ
  carryML : ℚ
  extraML : ℚ
  atMs : ℤ
  windowHitCounts : Option (List ℚ) := none
  windowHits : Option (List Bool) := none
  windowConsumedML : Option (List ℚ) := none
  lastEventAt : Option ℤ := none
deriving DecidableEq

/-- `dailyLog` as an insertion-ordered association list from day keys
to day entries (a JS object with date-string keys). -/
abbrev DailyLog := List (ℤ × DayEntry)

/-- JS `obj[k]` on the `dailyLog` object. -/
def lookupLog : DailyLog → ℤ → Option DayEntry
  | [], _ => none
  | (k', v) :: rest, k => if k' = k then some v else lookupLog rest k

/-- JS `{...obj, [k]: v}`: replaces an existing key in place, appends a
fresh key. -/
def upsertLog : DailyLog → ℤ → DayEntry → DailyLog
  | [], k, v => [(k, v)]
  | (k', v') :: rest, k, v =>
    if k' = k then (k, v) :: rest else (k', v') :: upsertLog rest k v

/-- One undo-history record (`src/unnamed/part_001` lines 536-547). -/
structure HistoryEntry where
  t : ℤ
  prevRemaining : ℚ
  prevCompleted : ℚ
  prevCarry : ℚ
  prevExtra : ℚ
  action : Option ActionTag := none
  ml : Option ℚ := none
  rhythmWindowIndex : Option ℕ := none
  rhythmDelta : Option ℚ := none
  rhythmMlDelta : Option ℚ := none
deriving DecidableEq

/-- The two celebration event kinds (`src/unnamed/part_001` line 550). -/
inductive CelebrateType
  | bottle
  | goal
deriving DecidableEq

/-- `celebrate: { type, pct, consumedML }`. -/
structure Celebrate where
  ctype : CelebrateType
  pct : ℚ
  consumedML : ℚ
deriving DecidableEq

/-- The tracking-relevant projection of the app state
(`src/unnamed/part_001` lines 470-551): configuration, the per-day
counters, the daily log, the undo history and the pending celebration.
UI-only fields (onboarding, animation, labels) are outside the
tracking core and omitted.  `wakeMins`/`sleepMins` are stored as
integers: every writer in the source (`toMinutes`, the defaults)
produces a whole minute of day. -/
structure AppState where
  goalML : ℚ
  bottleML : ℚ
  wakeMins : ℤ
  sleepMins : ℤ
  dayKey : ℤ
  completedBottles : ℚ
  remaining : ℚ
  carryML : ℚ
  extraML : ℚ
  dailyLog : DailyLog
  history : List HistoryEntry
  celebrate : Option Celebrate
deriving DecidableEq

/-- Source `totalConsumedFromState(s)` (`src/unnamed/part_001`
lines 554-561, identical in `src/src/App.tsx` lines 490-497).  The
`(s.carryML || 0)` guards are identities here because the modelled
fields are always numbers. -/
def totalConsumedFromState (s : AppState) : ℚ :=
  let n := ceilDiv s.goalML s.bottleML
  let completed := clamp s.completedBottles 0 n * s.bottleML
  let consumedCurrent := ((jsRound ((1 - s.remaining) * s.bottleML) : ℤ) : ℚ)
  let carry := clamp ((jsRound s.carryML : ℤ) : ℚ) 0 100000
  let extra := clamp ((jsRound s.extraML : ℤ) : ℚ) 0 100000
  min s.goalML (completed + consumedCurrent + carry + extra)

/-- Source `advanceBottle(s)` (`src/unnamed/part_001` lines 1480-1488):
increments `completedBottles` up to the cap `ceilDiv(goal, bottle)` and
restarts the bottle at `remaining = 1`. -/
def advanceBottle (s : AppState) : AppState :=
  let n := ceilDiv s.goalML s.bottleML
  if n ≤ 0 then s
  else
    { s with
      completedBottles :=
        if s.completedBottles < n then s.completedBottles + 1 else s.completedBottles
      remaining := 1 }

/-- Source `getHydrationWindowBoundsForDayKey(key, wakeMins, sleepMins)`
(`src/unnamed/part_001` lines 1841-1852): midnight of the key's civil
day plus the wake minute gives the window start; the sleep minute
(taken mod one day, pushed to the next day when `sleepMins <
wakeMins`) gives the end. -/
def getHydrationWindowBoundsForDayKey (key : ℤ) (wakeMins sleepMins : ℤ) : ℤ × ℤ :=
  let base := key * msPerDay
  let start := base + (wakeMins.fdiv 60) * 3600000 + (wakeMins.tmod 60) * msPerMin
  let end0 := base + ((sleepMins.tmod 1440).fdiv 60) * 3600000 + (sleepMins.tmod 60) * msPerMin
  let endv := if sleepMins < wakeMins then end0 + msPerDay else end0
  (start, endv)

/-- Source `getRhythmWindowIndexForDayKey(atMs, key, wakeMins, sleepMins)`
(`src/unnamed/part_001` lines 1854-1867). -/
def getRhythmWindowIndexForDayKey (atMs : ℤ) (key : ℤ) (wakeMins sleepMins : ℤ) : ℕ :=
  let b := getHydrationWindowBoundsForDayKey key wakeMins sleepMins
  let total := b.2 - b.1
  if total ≤ 0 then 0
  else if b.2 ≤ atMs then 4
  else
    let elapsed := clamp ((atMs - b.1 : ℤ) : ℚ) 0 ((total : ℚ) - 1)
    let segment := (total : ℚ) / 5
    (min 4 (max 0 ⌊elapsed / segment⌋)).toNat

/-- The `windowHits` fallback of the hit-count recovery chain shared by
`updateDailyLogRhythm` (`src/unnamed/part_001` lines 1873-1877) and
`undo` (lines 1607-1611): a legacy boolean `windowHits` array of length
5 is converted to counts, anything else yields zeros. -/
def hitCountsFallback (existing : Option DayEntry) : List ℚ :=
  match existing.bind DayEntry.windowHits with
  | some bl => if bl.length = 5 then bl.map (fun h => if h then (1 : ℚ) else 0) else [0, 0, 0, 0, 0]
  | none => [0, 0, 0, 0, 0]

/-- `Array.isArray(existing?.windowHitCounts) && length === 5 ? copy :
(windowHits fallback)`, as written identically in
`updateDailyLogRhythm` and `undo`. -/
def effectiveHitCounts (existing : Option DayEntry) : List ℚ :=
  match existing.bind DayEntry.windowHitCounts with
  | some l => if l.length = 5 then l else hitCountsFallback existing
  | none => hitCountsFallback existing

/-- `Array.isArray(existing?.windowConsumedML) && length === 5 ? copy :
zeros`, as written identically in `updateDailyLogRhythm` and `undo`. -/
def effectiveConsumedMl (existing : Option DayEntry) : List ℚ :=
  match existing.bind DayEntry.windowConsumedML with
  | some l => if l.length = 5 then l else [0, 0, 0, 0, 0]
  | none => [0, 0, 0, 0, 0]

/-- Source `updateDailyLogRhythm(s, atMs, deltaMl)`
(`src/unnamed/part_001` lines 1869-1917), without the DEV-only console
logging.  Only a delta of at least 120 ml bumps the hit count and the
accumulated ml of the event's segment; the day entry itself (consumed
total, configuration echo, `lastEventAt`) is rewritten on every call. -/
def updateDailyLogRhythm (s : AppState) (atMs : ℤ) (deltaMl : ℚ) : DailyLog :=
  let key := dayKeyByWake atMs (s.wakeMins : ℚ)
  let existing := lookupLog s.dailyLog key
  let whc := effectiveHitCounts existing
  let wcm := effectiveConsumedMl existing
  let idx := getRhythmWindowIndexForDayKey atMs key s.wakeMins s.sleepMins
  let whc' := if 120 ≤ deltaMl then whc.set idx (max 0 (whc.getD idx 0 + 1)) else whc
  let wcm' := if 120 ≤ deltaMl then wcm.set idx (max 0 (wcm.getD idx 0 + deltaMl)) else wcm
  upsertLog s.dailyLog key
    { consumedML := totalConsumedFromState s
      goalML := s.goalML
      bottleML := s.bottleML
      carryML := s.carryML
      extraML := s.extraML
      atMs := (match existing with | some e => e.atMs | none => atMs)
      windowHitCounts := some whc'
      windowHits := none
      windowConsumedML := some wcm'
      lastEventAt := some atMs }

/-- The in-place fresh-day reset performed at the head of every
mutating operation when the stored `dayKey` is stale
(`src/unnamed/part_001` lines 1494-1496 and 1556-1558). -/
def freshDayReset (s : AppState) (today : ℤ) : AppState :=
  { s with
    dayKey := today, completedBottles := 0, remaining := 1,
    carryML := 0, extraML := 0, history := [], celebrate := none }

/-- The history record pushed by `setRemaining`
(`src/unnamed/part_001` lines 1515-1526), factored out of `setRemaining`
so theorems can name it; `ss` is the state after the fresh-day check. -/
def setRemainingHistEntry (ss : AppState) (now : ℤ) (nextRemaining : ℚ)
    (metaAction : Option ActionTag) : HistoryEntry :=
  let beforeConsumed := totalConsumedFromState ss
  let r := clamp nextRemaining 0 1
  let ns1 := { ss with remaining := r }
  let ns2 := if r ≤ 1/10000 then advanceBottle ns1 else ns1
  let afterConsumed := totalConsumedFromState ns2
  let rhythmDelta := max 0 (afterConsumed - beforeConsumed)
  let rhythmWindowIndex : Option ℕ :=
    if 120 ≤ rhythmDelta then
      some (getRhythmWindowIndexForDayKey now (dayKeyByWake now (ss.wakeMins : ℚ))
              ss.wakeMins ss.sleepMins)
    else none
  { t := now, prevRemaining := ss.remaining, prevCompleted := ss.completedBottles,
    prevCarry := ss.carryML, prevExtra := ss.extraML, action := metaAction, ml := none,
    rhythmWindowIndex := rhythmWindowIndex,
    rhythmDelta := if rhythmWindowIndex.isSome then some 1 else none,
    rhythmMlDelta := if rhythmWindowIndex.isSome then some rhythmDelta else none }

/-- Source `setRemaining(nextRemaining, meta)` (`src/unnamed/part_001`
lines 1490-1550).  All the `new Date()` / `Date.now()` reads within the
single synchronous call are the one instant `now`.  The float literal
`0.0001` is `1/10000`.  The `hitGoal`/`didEmptyBottle` booleans are
inlined at their two use sites (`meta.action === "track"` is repeated
exactly where the source's boolean included it). -/
def setRemaining (s : AppState) (now : ℤ) (nextRemaining : ℚ)
    (metaAction : Option ActionTag) : AppState :=
  let today := dayKeyByWake now (s.wakeMins : ℚ)
  let ss := if s.dayKey ≠ today then freshDayReset s today else s
  let prev := ss.remaining
  let beforeConsumed := totalConsumedFromState ss
  let r := clamp nextRemaining 0 1
  let ns1 := { ss with remaining := r }
  let ns2 := if r ≤ 1/10000 then advanceBottle ns1 else ns1
  let afterConsumed := totalConsumedFromState ns2
  let pct := if 0 < ns2.goalML then ((jsRound (afterConsumed / ns2.goalML * 100) : ℤ) : ℚ) else 0
  let rhythmDelta := max 0 (afterConsumed - beforeConsumed)
  let entry := setRemainingHistEntry ss now nextRemaining metaAction
  let history := takeLast 50 (ss.history ++ [entry])
  let ns3 := { ns2 with history := history }
  let ns4 :=
    if metaAction = some ActionTag.track then
      { ns3 with dailyLog := updateDailyLogRhythm ns3 now rhythmDelta }
    else ns3
  if metaAction = some ActionTag.track ∧
      ((0 < ns2.goalML ∧ ns2.goalML ≤ afterConsumed) ∨ (1/10000 < prev ∧ r ≤ 1/10000)) then
    { ns4 with
      celebrate := some
        { ctype := if 0 < ns2.goalML ∧ ns2.goalML ≤ afterConsumed then CelebrateType.goal
                   else CelebrateType.bottle
          pct := clamp pct 0 100
          consumedML := afterConsumed } }
  else ns4

/-- The history record pushed by `addExtra`
(`src/unnamed/part_001` lines 1569-1578), factored out of `addExtra`
so theorems can name it; `ss` is the state after the fresh-day check. -/
def addExtraHistEntry (ss : AppState) (now : ℤ) (ml : ℚ) : HistoryEntry :=
  let rhythmWindowIndex : Option ℕ :=
    if 120 ≤ ml then
      some (getRhythmWindowIndexForDayKey now (dayKeyByWake now (ss.wakeMins : ℚ))
              ss.wakeMins ss.sleepMins)
    else none
  { t := now, prevRemaining := ss.remaining, prevCompleted := ss.completedBottles,
    prevCarry := ss.carryML, prevExtra := ss.extraML,
    action := some ActionTag.extra, ml := some ml,
    rhythmWindowIndex := rhythmWindowIndex,
    rhythmDelta := if rhythmWindowIndex.isSome then some 1 else none,
    rhythmMlDelta := if rhythmWindowIndex.isSome then some ml else none }

/-- Source `addExtra(ml)` (`src/unnamed/part_001` lines 1552-1588),
state-transition part (the trailing nudge-cancellation calls touch
only the notification service and the nudge tokens). -/
def addExtra (s : AppState) (now : ℤ) (ml : ℚ) : AppState :=
  let today := dayKeyByWake now (s.wakeMins : ℚ)
  let ss := if s.dayKey ≠ today then freshDayReset s today else s
  let nextExtra := clamp (ss.extraML + ml) 0 100000
  let entry := addExtraHistEntry ss now ml
  let history := takeLast 50 (ss.history ++ [entry])
  let next := { ss with extraML := nextExtra, history := history }
  { next with dailyLog := updateDailyLogRhythm next now ml }

/-- Source `undo()` (`src/unnamed/part_001` lines 1590-1643), without
the DEV-only console logging.  The `typeof last.prevCarry === "number"`
guards are identities here because the modelled fields are always
numbers; `last.t` is always a number, so `eventAt = last.t`. -/
def undoState (s : AppState) : AppState :=
  match s.history.getLast? with
  | none => s
  | some last =>
    let ns :=
      { s with
        remaining := last.prevRemaining, completedBottles := last.prevCompleted,
        carryML := last.prevCarry, extraML := last.prevExtra,
        history := s.history.dropLast }
    match last.rhythmWindowIndex with
    | none => ns
    | some widx =>
      let eventAt := last.t
      let key := dayKeyByWake eventAt (ns.wakeMins : ℚ)
      let day := lookupLog ns.dailyLog key
      let whc := effectiveHitCounts day
      let delta := match last.rhythmDelta with | some d => d | none => 1
      let whc' := whc.set widx (max 0 (whc.getD widx 0 - delta))
      let mlDelta := match last.rhythmMlDelta with | some d => d | none => 0
      let wcm := effectiveConsumedMl day
      let wcm' := if 0 < mlDelta then wcm.set widx (max 0 (wcm.getD widx 0 - mlDelta)) else wcm
      let dailyLog := upsertLog ns.dailyLog key
        { consumedML := totalConsumedFromState ns
          goalML := (match day with | some d => d.goalML | none => ns.goalML)
          bottleML := (match day with | some d => d.bottleML | none => ns.bottleML)
          carryML := (match day with | some d => d.carryML | none => ns.carryML)
          extraML := (match day with | some d => d.extraML | none => ns.extraML)
          atMs := (match day with | some d => d.atMs | none => eventAt)
          windowHitCounts := some whc'
          windowHits := none
          windowConsumedML := some wcm'
          lastEventAt := some eventAt }
      { ns with dailyLog := dailyLog }

/-- The end-of-day snapshot written by `resetToTodayIfNeeded`
(`src/unnamed/part_001` lines 1309-1319). -/
def rolloverSnapshot (s : AppState) (now : ℤ) : DayEntry :=
  { consumedML := totalConsumedFromState s
    goalML := s.goalML
    bottleML := s.bottleML
    carryML := ((jsRound s.carryML : ℤ) : ℚ)
    extraML := ((jsRound s.extraML : ℤ) : ℚ)
    atMs := now }

/-- Ascending insertion by key, auxiliary to `sortLogByKey`. -/
def insertByKey (p : ℤ × DayEntry) : DailyLog → DailyLog
  | [] => [p]
  | q :: rest => if p.1 ≤ q.1 then p :: q :: rest else q :: insertByKey p rest

/-- `Object.keys(log).sort()` followed by rebuilding the object in
sorted key order: on zero-padded `YYYY-MM-DD` strings the lexicographic
sort is the chronological sort, i.e. ascending day numbers. -/
def sortLogByKey : DailyLog → DailyLog
  | [] => []
  | p :: rest => insertByKey p (sortLogByKey rest)

/-- `keys.sort()` then `slice(-n)` then rebuild
(`src/unnamed/part_001` lines 1321-1324): keep the `n` newest days,
evicting the oldest keys first. -/
def pruneLog (n : ℕ) (l : DailyLog) : DailyLog :=
  takeLast n (sortLogByKey l)

/-- Source `resetToTodayIfNeeded` transition (`src/unnamed/part_001`
lines 1302-1340), state part (persistence is fire-and-forget): when the
stored `dayKey` is stale, snapshot the old day under its key
(unconditionally — `{...dailyLog, [prevKey]: snapshot}` replaces any
existing entry), prune to the newest 365 days, and reset the counters
for the new day. -/
def resetToTodayIfNeeded (s : AppState) (now : ℤ) : AppState :=
  let today := dayKeyByWake now (s.wakeMins : ℚ)
  if s.dayKey = today then s
  else
    let nextLog := upsertLog s.dailyLog s.dayKey (rolloverSnapshot s now)
    let pruned := pruneLog 365 nextLog
    { s with
      dailyLog := pruned, dayKey := today, completedBottles := 0, remaining := 1,
      carryML := 0, extraML := 0, history := [], celebrate := none }

/-- A `Retry-After` header value as the parser distinguishes them:
a finite number of seconds, an HTTP-date (given by its instant), or an
unparseable string. -/
inductive RetryAfterHeader
  | seconds (q : ℚ)
  | httpDate (ms : ℤ)
  | malformed
deriving DecidableEq

/-- Source `parseRetryAfterToMs(retryAfter)` (`src/unnamed/part_001`
lines 39-46, identical in `src/src/App.tsx`): absent header gives
`null`; a finite nonnegative number is seconds, rounded to ms; an
HTTP-date gives `max(0, date - Date.now())`; anything else (including
a negative number, which `Date.parse` does not accept) gives `null`. -/
def parseRetryAfterToMs (h : Option RetryAfterHeader) (now : ℤ) : Option ℤ :=
  match h with
  | none => none
  | some (RetryAfterHeader.seconds q) =>
    if 0 ≤ q then some (jsRound (q * 1000)) else none
  | some (RetryAfterHeader.httpDate d) => some (max 0 (d - now))
  | some RetryAfterHeader.malformed => none

/-- One HTTP response of the fill-estimation service, as far as
`estimatePercentFull` inspects it: the status, the `retry-after`
header, and the numeric `percent_full` / `fill_fraction` body fields
(the error-message strings only feed the thrown message text). -/
structure FetchResponse where
  status : ℤ
  retryAfter : Option RetryAfterHeader := none
  bodyPercentFull : Option ℚ := none
  bodyFillFraction : Option ℚ := none
deriving DecidableEq

/-- The failure taxonomy of `estimatePercentFull`: the typed
`RateLimitError` carrying `retryAfterMs`, the generic `Error` carrying
the status in its message, and the unexpected-shape `Error`. -/
inductive ScanError
  | rateLimited (waitMs : ℚ)
  | generic (status : ℤ)
  | badShape
deriving DecidableEq

/-- `res.ok`: status in the 2xx range. -/
def resOk (r : FetchResponse) : Prop := 200 ≤ r.status ∧ r.status ≤ 299

instance (r : FetchResponse) : Decidable (resOk r) := by
  unfold resOk; infer_instance

/-- The wait computed on a 429 (`src/unnamed/part_001` lines 137-141):
the parsed `Retry-After` when positive, else
`min(20000, 1200 * 2^(attempt-1)) + floor(random * 450)`. -/
def rateLimitWaitMs (r : FetchResponse) (attempt : ℕ) (jitterMs : ℤ) (now : ℤ) : ℚ :=
  let backoffMs : ℚ := min 20000 (1200 * 2 ^ (attempt - 1))
  match parseRetryAfterToMs r.retryAfter now with
  | some ra => if 0 < ra then (ra : ℚ) else backoffMs + (jitterMs : ℚ)
  | none => backoffMs + (jitterMs : ℚ)

/-- The non-429 handling of one loop iteration
(`src/unnamed/part_001` lines 156-168): non-2xx throws the generic
error with the status; a 2xx body yields `clamp(percent_full, 0, 100)`,
else `clamp(fill_fraction * 100, 0, 100)`, else the shape error. -/
def attemptOutcome (r : FetchResponse) : Except ScanError ℚ :=
  if ¬ resOk r then Except.error (ScanError.generic r.status)
  else
    match r.bodyPercentFull with
    | some p => Except.ok (clamp p 0 100)
    | none =>
      match r.bodyFillFraction with
      | some f => Except.ok (clamp (f * 100) 0 100)
      | none => Except.error ScanError.badShape

/-- The observable result of `estimatePercentFull`: the returned value
or thrown error, the sleeps performed (in ms), and the number of
requests issued. -/
structure ScanOutcome where
  result : Except ScanError ℚ
  sleeps : List ℚ
  requests : ℕ

/-- Source `estimatePercentFull(imageDataUrl, signal)`
(`src/unnamed/part_001` lines 115-173, identical in `src/src/App.tsx`
lines 111-169), with `MAX_ATTEMPTS = 2`: the two-iteration loop is
unrolled.  `r1`/`r2` are the responses of the first and (if issued)
second request; `j1`/`j2` are the `Math.floor(Math.random() * 450)`
jitter draws of the two iterations.  On a 429 at attempt 1 the caller
sleeps the computed wait and retries; a 429 at attempt 2 throws
`RateLimitError` carrying that attempt's wait. -/
def estimatePercentFull (r1 r2 : FetchResponse) (j1 j2 : ℤ) (now : ℤ) : ScanOutcome :=
  if r1.status = 429 then
    let wait1 := rateLimitWaitMs r1 1 j1 now
    if r2.status = 429 then
      let wait2 := rateLimitWaitMs r2 2 j2 now
      { result := Except.error (ScanError.rateLimited wait2), sleeps := [wait1], requests := 2 }
    else
      { result := attemptOutcome r2, sleeps := [wait1], requests := 2 }
  else
    { result := attemptOutcome r1, sleeps := [], requests := 1 }

/-! ### Generic helper lemmas -/

lemma tmod_1440_lb (m : ℤ) : -1440 < m.tmod 1440 := by
  rcases le_or_lt 0 m with h | h
  · have := Int.tmod_nonneg (a := m) 1440 h
    omega
  · obtain ⟨k, rfl⟩ : ∃ k : ℕ, m = Int.negSucc k :=
      ⟨(-(m + 1)).toNat, by rw [Int.negSucc_eq]; omega⟩
    have hdef : (Int.negSucc k).tmod 1440 = -(((k + 1) % 1440 : ℕ) : ℤ) := rfl
    have hlt : (k + 1) % 1440 < 1440 := Nat.mod_lt _ (by omega)
    omega

lemma boundaryMins_bounds (m : ℤ) :
    0 ≤ (m.tmod 1440 + 1440).tmod 1440 ∧ (m.tmod 1440 + 1440).tmod 1440 < 1440 := by
  have h1 := tmod_1440_lb m
  have h3 : 0 ≤ m.tmod 1440 + 1440 := by omega
  exact ⟨Int.tmod_nonneg 1440 h3, Int.tmod_lt_of_pos _ (by omega)⟩

lemma wakeBoundaryMins_bounds (w : ℚ) :
    0 ≤ wakeBoundaryMins w ∧ wakeBoundaryMins w < 1440 :=
  boundaryMins_bounds (jsRound w)

lemma sleepBoundaryMins_bounds (s : ℚ) :
    0 ≤ sleepBoundaryMins s ∧ sleepBoundaryMins s < 1440 :=
  boundaryMins_bounds (jsRound s)

lemma dayKeyOfMs_zero : dayKeyOfMs 0 = 0 := by
  norm_num [dayKeyOfMs, msPerDay]

lemma dayKeyOfMs_neg_small (x : ℤ) (h1 : -1440 < x) (h2 : x < 0) :
    dayKeyOfMs (x * msPerMin) = -1 := by
  have h1' : (-1440 : ℚ) < (x : ℚ) := by exact_mod_cast h1
  have h2' : (x : ℚ) < 0 := by exact_mod_cast h2
  unfold dayKeyOfMs msPerDay msPerMin
  rw [Int.floor_eq_iff]
  constructor
  · rw [le_div_iff (by norm_num)]
    push_cast
    nlinarith [h1']
  · rw [div_lt_iff (by norm_num)]
    push_cast
    nlinarith [h2']

/-- Closed linear form of each checkpoint segment. -/
lemma checkpointPct_eq (p : ℚ) : checkpointPct p =
    if p ≤ 1/4 then (6/5) * p
    else if p ≤ 1/2 then 3/10 + (p - 1/4)
    else if p ≤ 7/10 then 11/20 + (p - 1/2)
    else if p ≤ 87/100 then 3/4 + (15/17) * (p - 7/10)
    else if p ≤ 1 then 9/10 + (10/13) * (p - 87/100)
    else 1 := by
  unfold checkpointPct
  norm_num
  split_ifs <;> ring

lemma checkpointPct_le_one (p : ℚ) : checkpointPct p ≤ 1 := by
  rw [checkpointPct_eq]
  split_ifs <;> linarith

lemma checkpointPct_nonneg (p : ℚ) (hp : 0 ≤ p) : 0 ≤ checkpointPct p := by
  rw [checkpointPct_eq]
  split_ifs <;> linarith

set_option maxHeartbeats 1000000 in
lemma checkpointPct_mono {p q : ℚ} (hpq : p ≤ q) : checkpointPct p ≤ checkpointPct q := by
  rw [checkpointPct_eq, checkpointPct_eq]
  split_ifs <;> linarith

/-- A concrete well-formed state (the source's defaults: goal 2000 ml,
bottle 500 ml, wake 8:00, sleep 22:00, fresh day 0) used to
instantiate hypothesis-bearing theorems. -/
def sampleState : AppState :=
  { goalML := 2000, bottleML := 500, wakeMins := 480, sleepMins := 1320,
    dayKey := 0, completedBottles := 0, remaining := 1, carryML := 0, extraML := 0,
    dailyLog := [], history := [], celebrate := none }

/-! ### C1: the derived total-consumed invariant -/

/-- C1: for every state with positive goal and bottle volumes and a
fill fraction in `[0,1]`, `totalConsumedFromState` equals
`min(goalML, clamp(completedBottles, 0, ceil(goal/bottle)) * bottleML +
round((1-remaining)*bottleML) + clamp(round(carryML), 0, 100000) +
clamp(round(extraML), 0, 100000))`, and the value lies in
`[0, goalML]`. -/
theorem totalConsumed_formula_and_bounds (s : AppState)
    (hg : 0 < s.goalML) (hb : 0 < s.bottleML)
    (hr0 : 0 ≤ s.remaining) (hr1 : s.remaining ≤ 1) :
    totalConsumedFromState s =
      min s.goalML
        (clamp s.completedBottles 0 ((⌈s.goalML / s.bottleML⌉ : ℤ) : ℚ) * s.bottleML
          + ((jsRound ((1 - s.remaining) * s.bottleML) : ℤ) : ℚ)
          + clamp ((jsRound s.carryML : ℤ) : ℚ) 0 100000
          + clamp ((jsRound s.extraML : ℤ) : ℚ) 0 100000) ∧
    0 ≤ totalConsumedFromState s ∧ totalConsumedFromState s ≤ s.goalML := by
  have hceil : ceilDiv s.goalML s.bottleML = ((⌈s.goalML / s.bottleML⌉ : ℤ) : ℚ) := by
    unfold ceilDiv
    rw [if_neg (not_le.mpr hb)]
  have h1 : (0 : ℚ) ≤ clamp s.completedBottles 0 (ceilDiv s.goalML s.bottleML) * s.bottleML := by
    unfold clamp
    exact mul_nonneg (le_max_left _ _) hb.le
  have h2 : (0 : ℚ) ≤ ((jsRound ((1 - s.remaining) * s.bottleML) : ℤ) : ℚ) := by
    unfold jsRound
    have hq : (0 : ℚ) ≤ (1 - s.remaining) * s.bottleML :=
      mul_nonneg (by linarith) hb.le
    have hz : (0 : ℤ) ≤ ⌊(1 - s.remaining) * s.bottleML + 1/2⌋ :=
      Int.le_floor.mpr (by push_cast; linarith)
    exact_mod_cast hz
  have h3 : (0 : ℚ) ≤ clamp ((jsRound s.carryML : ℤ) : ℚ) 0 100000 := by
    unfold clamp
    exact le_max_left _ _
  have h4 : (0 : ℚ) ≤ clamp ((jsRound s.extraML : ℤ) : ℚ) 0 100000 := by
    unfold clamp
    exact le_max_left _ _
  refine ⟨?_, ?_, ?_⟩
  · unfold totalConsumedFromState
    rw [hceil]
  · unfold totalConsumedFromState
    exact le_min hg.le (by positivity <;> linarith)
  · unfold totalConsumedFromState
    exact min_le_left _ _

/-- Witness for C1 at the sample state. -/
theorem totalConsumed_formula_and_bounds_witness :
    (0 < sampleState.goalML ∧ 0 < sampleState.bottleML ∧
      0 ≤ sampleState.remaining ∧ sampleState.remaining ≤ 1) ∧
    (0 ≤ totalConsumedFromState sampleState ∧
      totalConsumedFromState sampleState ≤ sampleState.goalML) :=
  ⟨by norm_num [sampleState],
    (totalConsumed_formula_and_bounds sampleState (by norm_num [sampleState])
      (by norm_num [sampleState]) (by norm_num [sampleState])
      (by norm_num [sampleState])).2⟩

/-! ### C4: the two revisions key the day boundary differently -/

/-- C4: `src/unnamed/part_001` shifts the instant backward by the wake
minute while `src/src/App.tsx` shifts it backward by the sleep minute;
whenever the two normalized boundary minutes differ there is an
instant the two revisions place on different days, so the two day-key
functions are not extensionally equal. -/
theorem dayKeyByWake_ne_dayKeyBySleep (w sl : ℚ)
    (h : wakeBoundaryMins w ≠ sleepBoundaryMins sl) :
    ∃ t : ℤ, dayKeyByWake t w ≠ dayKeyBySleep t sl := by
  obtain ⟨ha0, ha1⟩ := wakeBoundaryMins_bounds w
  obtain ⟨hb0, hb1⟩ := sleepBoundaryMins_bounds sl
  rcases lt_or_gt_of_ne h with hlt | hgt
  · refine ⟨wakeBoundaryMins w * msPerMin, ?_⟩
    have hw : dayKeyByWake (wakeBoundaryMins w * msPerMin) w = 0 := by
      unfold dayKeyByWake
      rw [show wakeBoundaryMins w * msPerMin - wakeBoundaryMins w * msPerMin = 0 by ring]
      exact dayKeyOfMs_zero
    have hs : dayKeyBySleep (wakeBoundaryMins w * msPerMin) sl = -1 := by
      unfold dayKeyBySleep
      rw [show wakeBoundaryMins w * msPerMin - sleepBoundaryMins sl * msPerMin =
            (wakeBoundaryMins w - sleepBoundaryMins sl) * msPerMin by ring]
      exact dayKeyOfMs_neg_small _ (by omega) (by omega)
    rw [hw, hs]
    decide
  · refine ⟨sleepBoundaryMins sl * msPerMin, ?_⟩
    have hs : dayKeyBySleep (sleepBoundaryMins sl * msPerMin) sl = 0 := by
      unfold dayKeyBySleep
      rw [show sleepBoundaryMins sl * msPerMin - sleepBoundaryMins sl * msPerMin = 0 by ring]
      exact dayKeyOfMs_zero
    have hw : dayKeyByWake (sleepBoundaryMins sl * msPerMin) w = -1 := by
      unfold dayKeyByWake
      rw [show sleepBoundaryMins sl * msPerMin - wakeBoundaryMins w * msPerMin =
            (sleepBoundaryMins sl - wakeBoundaryMins w) * msPerMin by ring]
      exact dayKeyOfMs_neg_small _ (by omega) (by omega)
    rw [hw, hs]
    decide

/-- Witness for C4 at the default schedule (wake 480, sleep 1320). -/
theorem dayKeyByWake_ne_dayKeyBySleep_witness :
    wakeBoundaryMins 480 ≠ sleepBoundaryMins 1320 ∧
    ∃ t : ℤ, dayKeyByWake t 480 ≠ dayKeyBySleep t 1320 := by
  have h480 : wakeBoundaryMins 480 = 480 := by
    unfold wakeBoundaryMins
    rw [show jsRound 480 = 480 by norm_num [jsRound]]
    decide
  have h1320 : sleepBoundaryMins 1320 = 1320 := by
    unfold sleepBoundaryMins
    rw [show jsRound 1320 = 1320 by norm_num [jsRound]]
    decide
  have hne : wakeBoundaryMins 480 ≠ sleepBoundaryMins 1320 := by
    rw [h480, h1320]
    decide
  exact ⟨hne, dayKeyByWake_ne_dayKeyBySleep 480 1320 hne⟩

/-! ### C5 / C6: the pacing model -/

lemma clamp_lb (x a b : ℚ) : a ≤ clamp x a b := le_max_left _ _

lemma clamp_ub (x a b : ℚ) (h : a ≤ b) : clamp x a b ≤ b := max_le h (min_le_left _ _)

lemma clamp_duration_pos (x : ℚ) : (0 : ℚ) < clamp x (6 * 60) (20 * 60) :=
  lt_of_lt_of_le (by norm_num) (clamp_lb _ _ _)

/-- The normalized wake start of the window, as an integer minute. -/
def specWakeStart (w : ℚ) : ℤ := max 0 (min 1439 (jsRound w))

lemma specWakeStart_cast (w : ℚ) :
    ((specWakeStart w : ℤ) : ℚ) = clamp ((jsRound w : ℤ) : ℚ) 0 1439 := by
  unfold specWakeStart clamp
  push_cast
  rfl

/-- The normalized sleep end of the window (pushed to the next day when
it does not exceed the wake start), exactly as `expectedPctAt`
computes it. -/
def sleepEndQ (w sl : ℚ) : ℚ :=
  let start := clamp ((jsRound w : ℤ) : ℚ) 0 1439
  let end0 := clamp ((jsRound sl : ℤ) : ℚ) 0 2879
  if end0 ≤ start then end0 + 1440 else end0

lemma sleepEnd_gt_wakeStart (w sl : ℚ) :
    clamp ((jsRound w : ℤ) : ℚ) 0 1439 < sleepEndQ w sl := by
  unfold sleepEndQ
  dsimp only
  have h1 : (0 : ℚ) ≤ clamp ((jsRound sl : ℤ) : ℚ) 0 2879 := clamp_lb _ _ _
  have h2 : clamp ((jsRound w : ℤ) : ℚ) 0 1439 ≤ 1439 := clamp_ub _ _ _ (by norm_num)
  split_ifs with h
  · linarith
  · linarith [not_le.mp h]

set_option maxHeartbeats 2000000 in
lemma expectedPct_bounds (t : ℤ) (w sl : ℚ) :
    0 ≤ expectedPctAtMinutes t w sl ∧ expectedPctAtMinutes t w sl ≤ 1 := by
  unfold expectedPctAtMinutes
  dsimp only
  split_ifs
  all_goals constructor
  all_goals try norm_num
  all_goals try exact checkpointPct_le_one _
  all_goals try { apply checkpointPct_nonneg; norm_num }
  all_goals apply checkpointPct_nonneg
  all_goals apply div_nonneg
  all_goals try linarith
  all_goals unfold clamp
  all_goals exact le_trans (by norm_num) (le_max_left _ _)

lemma expectedPct_at_wake (w sl : ℚ) :
    expectedPctAtMinutes (specWakeStart w) w sl = 0 := by
  unfold expectedPctAtMinutes
  dsimp only
  rw [specWakeStart_cast]
  rw [if_neg (lt_irrefl _)]
  rw [if_pos le_rfl]

lemma expectedPct_after_sleep (w sl : ℚ) (t : ℤ)
    (h1 : clamp ((jsRound w : ℤ) : ℚ) 0 1439 ≤ (t : ℚ))
    (h2 : sleepEndQ w sl ≤ (t : ℚ)) :
    expectedPctAtMinutes t w sl = 1 := by
  have hgt := sleepEnd_gt_wakeStart w sl
  unfold sleepEndQ at h2 hgt
  unfold expectedPctAtMinutes
  dsimp only at h2 hgt ⊢
  rw [if_neg (not_lt.mpr h1)]
  rw [if_neg (not_le.mpr (lt_of_lt_of_le hgt h2))]
  rw [if_pos h2]

lemma expectedPct_pre_wake (w sl : ℚ) (t : ℤ) (h0 : 0 ≤ t)
    (h1 : (t : ℚ) < clamp ((jsRound w : ℤ) : ℚ) 0 1439)
    (h2 : sleepEndQ w sl ≤ (t : ℚ) + 1440) :
    expectedPctAtMinutes t w sl = 1 := by
  have hst : clamp ((jsRound w : ℤ) : ℚ) 0 1439 ≤ 1439 := clamp_ub _ _ _ (by norm_num)
  have h0' : (0 : ℚ) ≤ (t : ℚ) := by exact_mod_cast h0
  unfold sleepEndQ at h2
  unfold expectedPctAtMinutes
  dsimp only at h2 ⊢
  rw [if_pos h1]
  rw [if_neg (by linarith : ¬ ((t : ℚ) + 1440 ≤ clamp ((jsRound w : ℤ) : ℚ) 0 1439))]
  rw [if_pos h2]

lemma expectedPct_interior (w sl : ℚ) (t : ℤ)
    (hgt : clamp ((jsRound w : ℤ) : ℚ) 0 1439 < (t : ℚ))
    (hlt : (t : ℚ) < sleepEndQ w sl) :
    expectedPctAtMinutes t w sl =
      checkpointPct (((t : ℚ) - clamp ((jsRound w : ℤ) : ℚ) 0 1439) /
        clamp (sleepEndQ w sl - clamp ((jsRound w : ℤ) : ℚ) 0 1439) (6 * 60) (20 * 60)) := by
  unfold sleepEndQ at hlt ⊢
  unfold expectedPctAtMinutes
  dsimp only at hlt ⊢
  rw [if_neg (not_lt.mpr hgt.le)]
  rw [if_neg (not_le.mpr hgt)]
  rw [if_neg (not_le.mpr hlt)]
  rw [if_pos (clamp_duration_pos _)]

/-- C5 (amended): for every schedule, `expectedPctAt`'s core (i) stays
in `[0,1]`, (ii) is `0` exactly at the normalized wake minute,
(iii) is `1` at/after the sleep end, (iv) is `1` — not `0` — for
pre-wake minutes whose next-day wrap lands at/after the sleep end
(in particular all pre-wake minutes of a non-wrapping window), and
(v) is monotonically non-decreasing in the minute within the window
(from the wake start onward). -/
theorem expectedPct_window_props (w sl : ℚ) :
    (∀ t : ℤ, 0 ≤ expectedPctAtMinutes t w sl ∧ expectedPctAtMinutes t w sl ≤ 1) ∧
    expectedPctAtMinutes (specWakeStart w) w sl = 0 ∧
    (∀ t : ℤ, clamp ((jsRound w : ℤ) : ℚ) 0 1439 ≤ (t : ℚ) → sleepEndQ w sl ≤ (t : ℚ) →
      expectedPctAtMinutes t w sl = 1) ∧
    (∀ t : ℤ, 0 ≤ t → (t : ℚ) < clamp ((jsRound w : ℤ) : ℚ) 0 1439 →
      sleepEndQ w sl ≤ (t : ℚ) + 1440 → expectedPctAtMinutes t w sl = 1) ∧
    (∀ t1 t2 : ℤ, clamp ((jsRound w : ℤ) : ℚ) 0 1439 ≤ (t1 : ℚ) → t1 ≤ t2 →
      expectedPctAtMinutes t1 w sl ≤ expectedPctAtMinutes t2 w sl) := by
  refine ⟨fun t => expectedPct_bounds t w sl, expectedPct_at_wake w sl,
    fun t h1 h2 => expectedPct_after_sleep w sl t h1 h2,
    fun t h0 h1 h2 => expectedPct_pre_wake w sl t h0 h1 h2, ?_⟩
  intro t1 t2 h1 h12
  have h12' : (t1 : ℚ) ≤ (t2 : ℚ) := by exact_mod_cast h12
  have h2 : clamp ((jsRound w : ℤ) : ℚ) 0 1439 ≤ (t2 : ℚ) := le_trans h1 h12'
  rcases eq_or_lt_of_le h1 with heq | hgt1
  · have ht1 : t1 = specWakeStart w := by
      have : ((specWakeStart w : ℤ) : ℚ) = (t1 : ℚ) := by rw [specWakeStart_cast, heq]
      exact_mod_cast this.symm
    rw [ht1, expectedPct_at_wake]
    exact (expectedPct_bounds t2 w sl).1
  · by_cases hB : sleepEndQ w sl ≤ (t1 : ℚ)
    · rw [expectedPct_after_sleep w sl t1 h1 hB,
        expectedPct_after_sleep w sl t2 h2 (le_trans hB h12')]
    · by_cases hC : sleepEndQ w sl ≤ (t2 : ℚ)
      · rw [expectedPct_after_sleep w sl t2 h2 hC]
        exact (expectedPct_bounds t1 w sl).2
      · rw [expectedPct_interior w sl t1 hgt1 (not_le.mp hB),
          expectedPct_interior w sl t2 (lt_of_lt_of_le hgt1 h12') (not_le.mp hC)]
        apply checkpointPct_mono
        exact (div_le_div_right (clamp_duration_pos _)).mpr (by linarith)

/-- Witness for C5 (amended) at the default schedule: monotonicity
between 10:00 and 11:40. -/
theorem expectedPct_window_props_witness :
    (clamp ((jsRound (480 : ℚ) : ℤ) : ℚ) 0 1439 ≤ ((600 : ℤ) : ℚ) ∧ (600 : ℤ) ≤ 700) ∧
    expectedPctAtMinutes 600 480 1320 ≤ expectedPctAtMinutes 700 480 1320 :=
  ⟨⟨by norm_num [clamp, jsRound], by norm_num⟩,
    (expectedPct_window_props 480 1320).2.2.2.2 600 700
      (by norm_num [clamp, jsRound]) (by norm_num)⟩

/-- Counterexample to C5 as stated: with wake 8:00 and sleep 22:00 the
minute 5:00 (300) is before the wake start, yet the function returns
`1`, not `0` (the pre-wake instant is wrapped to the next day and lands
past the sleep end). -/
theorem expectedPct_before_wake_is_one :
    (300 : ℚ) < clamp ((jsRound (480 : ℚ) : ℤ) : ℚ) 0 1439 ∧
    expectedPctAtMinutes 300 480 1320 = 1 := by
  constructor
  · norm_num [clamp, jsRound]
  · norm_num [expectedPctAtMinutes, checkpointPct, clamp, jsRound]

/-! ### C6: the 12:30 scenario value -/

/-- C6 (amended): with wake 480, sleep 1320 and goal 2000 ml, at 12:30
the window progress is 270/840 = 9/28 ≈ 32.1%, which falls between the
25%→30% and 50%→55% checkpoints and interpolates to exactly
13/35 ≈ 37.1% of the goal, i.e. `expectedMlAt` = 743 ml. -/
theorem expectedMl_1230_interpolation :
    (25 : ℚ)/100 < 270/840 ∧ (270 : ℚ)/840 < 50/100 ∧
    expectedPctAtMinutes 750 480 1320 = 13/35 ∧
    expectedMlAt 2000 (750 * 60000) 480 1320 = 743 := by
  refine ⟨by norm_num, by norm_num, ?_, ?_⟩
  · norm_num [expectedPctAtMinutes, checkpointPct, clamp, jsRound]
  · norm_num [expectedMlAt, expectedPctAt, minutesSinceMidnight, msPerMin,
      expectedPctAtMinutes, checkpointPct, clamp, jsRound]

/-- Counterexample to C6 as stated: the 12:30 expected volume is
743 ml, more than 100 ml above the claimed ≈626 ml (≈31.3% of goal) —
the claimed interpolation value is wrong. -/
theorem expectedMl_1230_not_626 :
    expectedMlAt 2000 (750 * 60000) 480 1320 ≠ 626 ∧
    (626 : ℚ) + 100 < expectedMlAt 2000 (750 * 60000) 480 1320 := by
  have h : expectedMlAt 2000 (750 * 60000) 480 1320 = 743 := by
    norm_num [expectedMlAt, expectedPctAt, minutesSinceMidnight, msPerMin,
      expectedPctAtMinutes, checkpointPct, clamp, jsRound]
  rw [h]
  norm_num

/-! ### List / log helper lemmas -/

lemma takeLast_of_le {α : Type} {n : ℕ} {l : List α} (h : l.length ≤ n) :
    takeLast n l = l := by
  unfold takeLast
  rw [Nat.sub_eq_zero_of_le h, List.drop_zero]

lemma lookup_upsert_self (l : DailyLog) (k : ℤ) (v : DayEntry) :
    lookupLog (upsertLog l k v) k = some v := by
  induction l with
  | nil => simp [upsertLog, lookupLog]
  | cons p rest ih =>
    obtain ⟨k', v'⟩ := p
    unfold upsertLog
    split_ifs with h
    · unfold lookupLog
      rw [if_pos rfl]
    · unfold lookupLog
      rw [if_neg h]
      exact ih

lemma upsertLog_ne_nil (l : DailyLog) (k : ℤ) (v : DayEntry) :
    upsertLog l k v ≠ [] := by
  cases l with
  | nil => simp [upsertLog]
  | cons p rest =>
    obtain ⟨k', v'⟩ := p
    unfold upsertLog
    split_ifs <;> simp

lemma wakeBoundaryMins_480 : wakeBoundaryMins 480 = 480 := by
  unfold wakeBoundaryMins
  rw [show jsRound 480 = 480 by norm_num [jsRound]]
  decide

lemma dayKeyByWake_36e6 : dayKeyByWake 36000000 480 = 0 := by
  unfold dayKeyByWake
  rw [wakeBoundaryMins_480]
  norm_num [dayKeyOfMs, msPerMin, msPerDay]

lemma dayKeyByWake_1224e5 : dayKeyByWake 122400000 480 = 1 := by
  unfold dayKeyByWake
  rw [wakeBoundaryMins_480]
  norm_num [dayKeyOfMs, msPerMin, msPerDay]

lemma sampleState_same_day :
    sampleState.dayKey = dayKeyByWake 36000000 (sampleState.wakeMins : ℚ) := by
  have hcast : ((sampleState.wakeMins : ℤ) : ℚ) = 480 := by norm_num [sampleState]
  rw [hcast, dayKeyByWake_36e6]
  norm_num [sampleState]

/-! ### C8: addExtra frame conditions -/

lemma addExtra_frame (s : AppState) (now : ℤ) (ml : ℚ)
    (hday : s.dayKey = dayKeyByWake now (s.wakeMins : ℚ)) :
    (addExtra s now ml).remaining = s.remaining ∧
    (addExtra s now ml).completedBottles = s.completedBottles ∧
    (addExtra s now ml).carryML = s.carryML ∧
    (addExtra s now ml).extraML = clamp (s.extraML + ml) 0 100000 ∧
    (addExtra s now ml).goalML = s.goalML ∧
    (addExtra s now ml).bottleML = s.bottleML ∧
    (addExtra s now ml).dayKey = s.dayKey ∧
    (addExtra s now ml).history = takeLast 50 (s.history ++ [addExtraHistEntry s now ml]) := by
  simp only [addExtra]
  rw [if_neg (not_not_intro hday)]
  exact ⟨rfl, rfl, rfl, rfl, rfl, rfl, rfl, rfl⟩

/-- C8: when the stored dayKey is current, `addExtra(ml)` leaves
`remaining`, `completedBottles`, `carryML` (and the configuration)
unchanged, sets `extraML` to the previous value plus `ml` clamped into
`[0, 100000]`, and appends one history entry recording the prior
values; in particular, on a fresh day with bottle 500 and remaining 1,
`addExtra 250` yields a consumed total of exactly 250 with remaining
still 1. -/
theorem addExtra_spec :
    (∀ (s : AppState) (now : ℤ) (ml : ℚ),
      s.dayKey = dayKeyByWake now (s.wakeMins : ℚ) →
      (addExtra s now ml).remaining = s.remaining ∧
      (addExtra s now ml).completedBottles = s.completedBottles ∧
      (addExtra s now ml).carryML = s.carryML ∧
      (addExtra s now ml).extraML = clamp (s.extraML + ml) 0 100000 ∧
      (addExtra s now ml).goalML = s.goalML ∧
      (addExtra s now ml).bottleML = s.bottleML ∧
      (addExtra s now ml).dayKey = s.dayKey ∧
      (addExtra s now ml).history =
        takeLast 50 (s.history ++ [addExtraHistEntry s now ml])) ∧
    totalConsumedFromState (addExtra sampleState 36000000 250) = 250 ∧
    (addExtra sampleState 36000000 250).remaining = 1 := by
  refine ⟨fun s now ml hday => addExtra_frame s now ml hday, ?_, ?_⟩
  · obtain ⟨hr, hc, hcar, hex, hg, hb, _, _⟩ :=
      addExtra_frame sampleState 36000000 250 sampleState_same_day
    unfold totalConsumedFromState
    rw [hr, hc, hcar, hex, hg, hb]
    norm_num [sampleState, clamp, ceilDiv, jsRound]
  · obtain ⟨hr, _⟩ := addExtra_frame sampleState 36000000 250 sampleState_same_day
    rw [hr]
    norm_num [sampleState]

/-- Witness for C8's universally quantified frame part at the sample
state. -/
theorem addExtra_spec_witness :
    (sampleState.dayKey = dayKeyByWake 36000000 (sampleState.wakeMins : ℚ)) ∧
    ((addExtra sampleState 36000000 250).remaining = sampleState.remaining ∧
      (addExtra sampleState 36000000 250).completedBottles = sampleState.completedBottles ∧
      (addExtra sampleState 36000000 250).carryML = sampleState.carryML ∧
      (addExtra sampleState 36000000 250).extraML =
        clamp (sampleState.extraML + 250) 0 100000 ∧
      (addExtra sampleState 36000000 250).goalML = sampleState.goalML ∧
      (addExtra sampleState 36000000 250).bottleML = sampleState.bottleML ∧
      (addExtra sampleState 36000000 250).dayKey = sampleState.dayKey ∧
      (addExtra sampleState 36000000 250).history =
        takeLast 50 (sampleState.history ++ [addExtraHistEntry sampleState 36000000 250])) :=
  ⟨sampleState_same_day, addExtra_spec.1 sampleState 36000000 250 sampleState_same_day⟩

/-! ### C2: undo after a single mutation -/

lemma setRemaining_history (s : AppState) (now : ℤ) (r0 : ℚ) (tag : Option ActionTag)
    (hday : s.dayKey = dayKeyByWake now (s.wakeMins : ℚ)) :
    (setRemaining s now r0 tag).history =
      takeLast 50 (s.history ++ [setRemainingHistEntry s now r0 tag]) := by
  simp only [setRemaining]
  rw [if_neg (not_not_intro hday)]
  split_ifs <;> rfl

lemma undoState_fields (s' : AppState) (last : HistoryEntry)
    (h : s'.history.getLast? = some last) :
    (undoState s').remaining = last.prevRemaining ∧
    (undoState s').completedBottles = last.prevCompleted ∧
    (undoState s').carryML = last.prevCarry ∧
    (undoState s').extraML = last.prevExtra ∧
    (undoState s').history = s'.history.dropLast := by
  unfold undoState
  rw [h]
  dsimp only
  cases hrw : last.rhythmWindowIndex with
  | none => exact ⟨rfl, rfl, rfl, rfl, rfl⟩
  | some widx => exact ⟨rfl, rfl, rfl, rfl, rfl⟩

lemma undoState_dailyLog_ne_nil (s' : AppState) (last : HistoryEntry) (widx : ℕ)
    (h : s'.history.getLast? = some last) (hw : last.rhythmWindowIndex = some widx) :
    (undoState s').dailyLog ≠ [] := by
  unfold undoState
  rw [h]
  dsimp only
  rw [hw]
  exact upsertLog_ne_nil _ _ _

/-- C2 (amended): for a same-day state with fewer than 50 history
entries, undo immediately after a single `addExtra` or `setRemaining`
restores `remaining`, `completedBottles`, `carryML`, `extraML` and
`history` exactly to their pre-mutation values (the `dailyLog`,
however, is not restored bit-for-bit — see the counterexample). -/
theorem undo_restores_core_fields :
    ∀ (s : AppState) (now : ℤ) (ml r0 : ℚ) (tag : Option ActionTag),
      s.dayKey = dayKeyByWake now (s.wakeMins : ℚ) →
      s.history.length < 50 →
      ((undoState (addExtra s now ml)).remaining = s.remaining ∧
        (undoState (addExtra s now ml)).completedBottles = s.completedBottles ∧
        (undoState (addExtra s now ml)).carryML = s.carryML ∧
        (undoState (addExtra s now ml)).extraML = s.extraML ∧
        (undoState (addExtra s now ml)).history = s.history) ∧
      ((undoState (setRemaining s now r0 tag)).remaining = s.remaining ∧
        (undoState (setRemaining s now r0 tag)).completedBottles = s.completedBottles ∧
        (undoState (setRemaining s now r0 tag)).carryML = s.carryML ∧
        (undoState (setRemaining s now r0 tag)).extraML = s.extraML ∧
        (undoState (setRemaining s now r0 tag)).history = s.history) := by
  intro s now ml r0 tag hday hlen
  have hfit : (s.history ++ [addExtraHistEntry s now ml]).length ≤ 50 := by
    simp
    omega
  have hfit' : (s.history ++ [setRemainingHistEntry s now r0 tag]).length ≤ 50 := by
    simp
    omega
  constructor
  · obtain ⟨_, _, _, _, _, _, _, hh⟩ := addExtra_frame s now ml hday
    rw [takeLast_of_le hfit] at hh
    have hg : (addExtra s now ml).history.getLast? = some (addExtraHistEntry s now ml) := by
      rw [hh, List.getLast?_concat]
    obtain ⟨h1, h2, h3, h4, h5⟩ := undoState_fields _ _ hg
    refine ⟨?_, ?_, ?_, ?_, ?_⟩
    · rw [h1]; rfl
    · rw [h2]; rfl
    · rw [h3]; rfl
    · rw [h4]; rfl
    · rw [h5, hh, List.dropLast_concat]
  · have hh := setRemaining_history s now r0 tag hday
    rw [takeLast_of_le hfit'] at hh
    have hg : (setRemaining s now r0 tag).history.getLast? =
        some (setRemainingHistEntry s now r0 tag) := by
      rw [hh, List.getLast?_concat]
    obtain ⟨h1, h2, h3, h4, h5⟩ := undoState_fields _ _ hg
    refine ⟨?_, ?_, ?_, ?_, ?_⟩
    · rw [h1]; rfl
    · rw [h2]; rfl
    · rw [h3]; rfl
    · rw [h4]; rfl
    · rw [h5, hh, List.dropLast_concat]

/-- Witness for C2 (amended) at the sample state. -/
theorem undo_restores_core_fields_witness :
    (sampleState.dayKey = dayKeyByWake 36000000 (sampleState.wakeMins : ℚ) ∧
      sampleState.history.length < 50) ∧
    (undoState (addExtra sampleState 36000000 250)).remaining = sampleState.remaining ∧
    (undoState (setRemaining sampleState 36000000 0 (some ActionTag.track))).remaining =
      sampleState.remaining :=
  ⟨⟨sampleState_same_day, by norm_num [sampleState]⟩,
    (undo_restores_core_fields sampleState 36000000 250 0 (some ActionTag.track)
      sampleState_same_day (by norm_num [sampleState])).1.1,
    (undo_restores_core_fields sampleState 36000000 250 0 (some ActionTag.track)
      sampleState_same_day (by norm_num [sampleState])).2.1⟩

/-- Counterexample to C2 as stated: on the fresh sample state (whose
`dailyLog` is empty), `addExtra 250` followed by undo leaves a
`dailyLog` entry behind — the state is not bit-for-bit restored. -/
theorem undo_dailyLog_not_restored :
    (sampleState.dayKey = dayKeyByWake 36000000 (sampleState.wakeMins : ℚ) ∧
      sampleState.history.length < 50) ∧
    (undoState (addExtra sampleState 36000000 250)).dailyLog ≠ sampleState.dailyLog := by
  refine ⟨⟨sampleState_same_day, by norm_num [sampleState]⟩, ?_⟩
  obtain ⟨_, _, _, _, _, _, _, hh⟩ :=
    addExtra_frame sampleState 36000000 250 sampleState_same_day
  rw [takeLast_of_le (by norm_num [sampleState])] at hh
  have hg : (addExtra sampleState 36000000 250).history.getLast? =
      some (addExtraHistEntry sampleState 36000000 250) := by
    rw [hh, List.getLast?_concat]
  have hrw : (addExtraHistEntry sampleState 36000000 250).rhythmWindowIndex =
      some (getRhythmWindowIndexForDayKey 36000000
        (dayKeyByWake 36000000 (sampleState.wakeMins : ℚ))
        sampleState.wakeMins sampleState.sleepMins) := by
    simp only [addExtraHistEntry]
    rw [if_pos (by norm_num)]
  have hne := undoState_dailyLog_ne_nil _ _ _ hg hrw
  have hnil : sampleState.dailyLog = [] := rfl
  rw [hnil]
  exact hne

/-! ### C3: the day-rollover transition -/

set_option maxRecDepth 4000 in
lemma rollover_frame (s : AppState) (now : ℤ)
    (hday : s.dayKey ≠ dayKeyByWake now (s.wakeMins : ℚ)) :
    (resetToTodayIfNeeded s now).dayKey = dayKeyByWake now (s.wakeMins : ℚ) ∧
    (resetToTodayIfNeeded s now).completedBottles = 0 ∧
    (resetToTodayIfNeeded s now).remaining = 1 ∧
    (resetToTodayIfNeeded s now).carryML = 0 ∧
    (resetToTodayIfNeeded s now).extraML = 0 ∧
    (resetToTodayIfNeeded s now).history = [] ∧
    (resetToTodayIfNeeded s now).celebrate = none ∧
    (resetToTodayIfNeeded s now).dailyLog =
      pruneLog 365 (upsertLog s.dailyLog s.dayKey (rolloverSnapshot s now)) := by
  simp only [resetToTodayIfNeeded]
  rw [if_neg hday]
  exact ⟨rfl, rfl, rfl, rfl, rfl, rfl, rfl, rfl⟩

/-- C3 (amended): when the stored dayKey is stale, the rollover writes
the prior day's final snapshot (carrying `totalConsumedFromState` of
the old state) into `dailyLog` under the previous dayKey —
unconditionally, replacing any entry already stored under that key —
prunes the log to the newest 365 days (oldest keys evicted first), and
resets `completedBottles = 0`, `remaining = 1`, `carryML = 0`,
`extraML = 0`, `history = []`, `celebrate = none`. -/
theorem rollover_spec (s : AppState) (now : ℤ)
    (hday : s.dayKey ≠ dayKeyByWake now (s.wakeMins : ℚ)) :
    (resetToTodayIfNeeded s now).dayKey = dayKeyByWake now (s.wakeMins : ℚ) ∧
    (resetToTodayIfNeeded s now).completedBottles = 0 ∧
    (resetToTodayIfNeeded s now).remaining = 1 ∧
    (resetToTodayIfNeeded s now).carryML = 0 ∧
    (resetToTodayIfNeeded s now).extraML = 0 ∧
    (resetToTodayIfNeeded s now).history = [] ∧
    (resetToTodayIfNeeded s now).celebrate = none ∧
    (resetToTodayIfNeeded s now).dailyLog =
      pruneLog 365 (upsertLog s.dailyLog s.dayKey (rolloverSnapshot s now)) ∧
    lookupLog (upsertLog s.dailyLog s.dayKey (rolloverSnapshot s now)) s.dayKey =
      some (rolloverSnapshot s now) ∧
    (rolloverSnapshot s now).consumedML = totalConsumedFromState s := by
  obtain ⟨h1, h2, h3, h4, h5, h6, h7, h8⟩ := rollover_frame s now hday
  exact ⟨h1, h2, h3, h4, h5, h6, h7, h8, lookup_upsert_self _ _ _, rfl⟩

/-- A state whose stored dayKey (day 0) is stale relative to an instant
on day 1. -/
def staleState : AppState := { sampleState with celebrate := some ⟨CelebrateType.bottle, 25, 500⟩ }

/-- Witness for C3 (amended): the sample state is stale at 10:00 of
day 1 and the rollover resets the counters. -/
theorem rollover_spec_witness :
    (staleState.dayKey ≠ dayKeyByWake 122400000 (staleState.wakeMins : ℚ)) ∧
    ((resetToTodayIfNeeded staleState 122400000).remaining = 1 ∧
      (resetToTodayIfNeeded staleState 122400000).completedBottles = 0 ∧
      (resetToTodayIfNeeded staleState 122400000).history = [] ∧
      (resetToTodayIfNeeded staleState 122400000).celebrate = none) := by
  have hcast : ((staleState.wakeMins : ℤ) : ℚ) = 480 := by
    norm_num [staleState, sampleState]
  have hne : staleState.dayKey ≠ dayKeyByWake 122400000 (staleState.wakeMins : ℚ) := by
    rw [hcast, dayKeyByWake_1224e5]
    norm_num [staleState, sampleState]
  obtain ⟨_, h2, h3, _, _, h6, h7, _⟩ := rollover_spec staleState 122400000 hne
  exact ⟨hne, h3, h2, h6, h7⟩

/-- A prior-day entry already present in the log before rollover. -/
def entry999 : DayEntry :=
  { consumedML := 999, goalML := 2000, bottleML := 500, carryML := 0, extraML := 0, atMs := 111 }

/-- A stale state that already carries a `dailyLog` entry under its own
(previous) dayKey. -/
def stateWithPrior : AppState := { sampleState with dailyLog := [(0, entry999)] }

/-- Counterexample to C3 as stated: the rollover does NOT skip writing
when the previous dayKey is already present — the existing snapshot
(consumed 999) is overwritten by the new one (consumed 0). -/
theorem rollover_overwrites_existing_snapshot :
    lookupLog stateWithPrior.dailyLog 0 = some entry999 ∧
    stateWithPrior.dayKey ≠ dayKeyByWake 122400000 (stateWithPrior.wakeMins : ℚ) ∧
    lookupLog (resetToTodayIfNeeded stateWithPrior 122400000).dailyLog 0 ≠ some entry999 := by
  have hcast : ((stateWithPrior.wakeMins : ℤ) : ℚ) = 480 := by
    norm_num [stateWithPrior, sampleState]
  have hne : stateWithPrior.dayKey ≠ dayKeyByWake 122400000 (stateWithPrior.wakeMins : ℚ) := by
    rw [hcast, dayKeyByWake_1224e5]
    norm_num [stateWithPrior, sampleState]
  refine ⟨by simp [stateWithPrior, sampleState, lookupLog], hne, ?_⟩
  obtain ⟨_, _, _, _, _, _, _, hlog⟩ := rollover_frame stateWithPrior 122400000 hne
  have hup : upsertLog stateWithPrior.dailyLog stateWithPrior.dayKey
      (rolloverSnapshot stateWithPrior 122400000) =
      [(0, rolloverSnapshot stateWithPrior 122400000)] := by
    simp [stateWithPrior, sampleState, upsertLog]
  have hprune : pruneLog 365 [(0, rolloverSnapshot stateWithPrior 122400000)] =
      [(0, rolloverSnapshot stateWithPrior 122400000)] := by
    simp [pruneLog, sortLogByKey, insertByKey, takeLast]
  rw [hlog, hup, hprune]
  have hlook : lookupLog [(0, rolloverSnapshot stateWithPrior 122400000)] 0 =
      some (rolloverSnapshot stateWithPrior 122400000) := by
    simp [lookupLog]
  rw [hlook]
  have hcons : (rolloverSnapshot stateWithPrior 122400000).consumedML = 0 := by
    norm_num [rolloverSnapshot, totalConsumedFromState, stateWithPrior, sampleState,
      clamp, ceilDiv, jsRound]
  intro heq
  have : (rolloverSnapshot stateWithPrior 122400000).consumedML = entry999.consumedML := by
    rw [Option.some_inj.mp heq]
  rw [hcons] at this
  norm_num [entry999] at this

/-! ### C9: rhythm segment attribution -/

/-- The claim's segment formula:
`floor(elapsed_since_window_start / (window_duration / 5))` clamped
into `[0, 4]`. -/
def specSegmentIndex (atMs key wakeMins sleepMins : ℤ) : ℕ :=
  let b := getHydrationWindowBoundsForDayKey key wakeMins sleepMins
  let total := b.2 - b.1
  (min 4 (max 0 ⌊((atMs - b.1 : ℤ) : ℚ) / ((total : ℚ) / 5)⌋)).toNat

set_option maxHeartbeats 800000 in
lemma rhythm_code_eq_spec (atMs key wakeMins sleepMins : ℤ)
    (h : 0 < (getHydrationWindowBoundsForDayKey key wakeMins sleepMins).2 -
        (getHydrationWindowBoundsForDayKey key wakeMins sleepMins).1) :
    getRhythmWindowIndexForDayKey atMs key wakeMins sleepMins =
      specSegmentIndex atMs key wakeMins sleepMins := by
  unfold getRhythmWindowIndexForDayKey specSegmentIndex
  dsimp only
  set a := (getHydrationWindowBoundsForDayKey key wakeMins sleepMins).1 with ha
  set b2 := (getHydrationWindowBoundsForDayKey key wakeMins sleepMins).2 with hb2
  rw [if_neg (not_le.mpr h)]
  by_cases hend : b2 ≤ atMs
  · rw [if_pos hend]
    have h5 : (5 : ℤ) ≤ ⌊((atMs - a : ℤ) : ℚ) / (((b2 - a : ℤ) : ℚ) / 5)⌋ := by
      rw [Int.le_floor]
      have hpos : (0 : ℚ) < ((b2 - a : ℤ) : ℚ) := by exact_mod_cast h
      rw [le_div_iff (by positivity)]
      have hmono : ((b2 - a : ℤ) : ℚ) ≤ ((atMs - a : ℤ) : ℚ) := by
        exact_mod_cast (by omega : b2 - a ≤ atMs - a)
      have hring : (5 : ℚ) * (((b2 - a : ℤ) : ℚ) / 5) = ((b2 - a : ℤ) : ℚ) := by ring
      linarith
    rw [max_eq_right (le_trans (by norm_num) h5), min_eq_left (le_trans (by norm_num) h5)]
    rfl
  · rw [if_neg hend]
    by_cases hneg : atMs - a < 0
    · have hx0 : ((atMs - a : ℤ) : ℚ) ≤ 0 := by exact_mod_cast hneg.le
      have ht1 : (0 : ℚ) ≤ ((b2 - a : ℤ) : ℚ) - 1 := by
        have : (1 : ℤ) ≤ b2 - a := h
        have : (1 : ℚ) ≤ ((b2 - a : ℤ) : ℚ) := by exact_mod_cast this
        linarith
      have hclamp : clamp ((atMs - a : ℤ) : ℚ) 0 (((b2 - a : ℤ) : ℚ) - 1) = 0 := by
        unfold clamp
        rw [min_eq_right (by linarith), max_eq_left hx0]
      rw [hclamp, zero_div, Int.floor_zero]
      have hfle : ⌊((atMs - a : ℤ) : ℚ) / (((b2 - a : ℤ) : ℚ) / 5)⌋ ≤ 0 := by
        apply Int.floor_nonpos
        apply div_nonpos_of_nonpos_of_nonneg hx0
        have hpos : (0 : ℚ) < ((b2 - a : ℤ) : ℚ) := by exact_mod_cast h
        positivity
      rw [max_eq_left hfle]
      rfl
    · push_neg at hneg
      have hle : atMs - a ≤ (b2 - a) - 1 := by omega
      have hclamp : clamp ((atMs - a : ℤ) : ℚ) 0 (((b2 - a : ℤ) : ℚ) - 1) =
          ((atMs - a : ℤ) : ℚ) := by
        unfold clamp
        rw [min_eq_right ?hmin, max_eq_right ?hmax]
        case hmin =>
          have : ((atMs - a : ℤ) : ℚ) ≤ ((b2 - a - 1 : ℤ) : ℚ) := by exact_mod_cast hle
          push_cast at this ⊢
          linarith
        case hmax => exact_mod_cast hneg
      rw [hclamp]

lemma rhythm_end_is_four (atMs key wakeMins sleepMins : ℤ)
    (h : 0 < (getHydrationWindowBoundsForDayKey key wakeMins sleepMins).2 -
        (getHydrationWindowBoundsForDayKey key wakeMins sleepMins).1)
    (hend : (getHydrationWindowBoundsForDayKey key wakeMins sleepMins).2 ≤ atMs) :
    getRhythmWindowIndexForDayKey atMs key wakeMins sleepMins = 4 := by
  unfold getRhythmWindowIndexForDayKey
  dsimp only
  rw [if_neg (not_le.mpr h), if_pos hend]

lemma updateDailyLogRhythm_hits (s : AppState) (atMs : ℤ) (deltaMl : ℚ) :
    ∃ e, lookupLog (updateDailyLogRhythm s atMs deltaMl)
        (dayKeyByWake atMs (s.wakeMins : ℚ)) = some e ∧
      e.windowHitCounts = some (
        let base := effectiveHitCounts (lookupLog s.dailyLog (dayKeyByWake atMs (s.wakeMins : ℚ)))
        let idx := getRhythmWindowIndexForDayKey atMs (dayKeyByWake atMs (s.wakeMins : ℚ))
          s.wakeMins s.sleepMins
        if 120 ≤ deltaMl then base.set idx (max 0 (base.getD idx 0 + 1)) else base) ∧
      e.windowConsumedML = some (
        let base := effectiveConsumedMl (lookupLog s.dailyLog (dayKeyByWake atMs (s.wakeMins : ℚ)))
        let idx := getRhythmWindowIndexForDayKey atMs (dayKeyByWake atMs (s.wakeMins : ℚ))
          s.wakeMins s.sleepMins
        if 120 ≤ deltaMl then base.set idx (max 0 (base.getD idx 0 + deltaMl)) else base) := by
  unfold updateDailyLogRhythm
  dsimp only
  exact ⟨_, lookup_upsert_self _ _ _, rfl, rfl⟩

/-- C9: for windows of positive duration, the code's segment index
equals `floor(elapsed / (duration/5))` clamped into `[0,4]`, with
timestamps at/after the window end attributed to segment 4; and
`updateDailyLogRhythm` bumps the segment's hit count and accumulated ml
exactly when the contributed volume is at least 120 ml (otherwise the
arrays are rewritten unchanged). -/
theorem rhythm_segment_spec :
    (∀ atMs key wakeMins sleepMins : ℤ,
      0 < (getHydrationWindowBoundsForDayKey key wakeMins sleepMins).2 -
          (getHydrationWindowBoundsForDayKey key wakeMins sleepMins).1 →
      getRhythmWindowIndexForDayKey atMs key wakeMins sleepMins =
        specSegmentIndex atMs key wakeMins sleepMins ∧
      ((getHydrationWindowBoundsForDayKey key wakeMins sleepMins).2 ≤ atMs →
        getRhythmWindowIndexForDayKey atMs key wakeMins sleepMins = 4)) ∧
    (∀ (s : AppState) (atMs : ℤ) (deltaMl : ℚ),
      ∃ e, lookupLog (updateDailyLogRhythm s atMs deltaMl)
          (dayKeyByWake atMs (s.wakeMins : ℚ)) = some e ∧
        e.windowHitCounts = some (
          let base := effectiveHitCounts (lookupLog s.dailyLog (dayKeyByWake atMs (s.wakeMins : ℚ)))
          let idx := getRhythmWindowIndexForDayKey atMs (dayKeyByWake atMs (s.wakeMins : ℚ))
            s.wakeMins s.sleepMins
          if 120 ≤ deltaMl then base.set idx (max 0 (base.getD idx 0 + 1)) else base) ∧
        e.windowConsumedML = some (
          let base := effectiveConsumedMl (lookupLog s.dailyLog (dayKeyByWake atMs (s.wakeMins : ℚ)))
          let idx := getRhythmWindowIndexForDayKey atMs (dayKeyByWake atMs (s.wakeMins : ℚ))
            s.wakeMins s.sleepMins
          if 120 ≤ deltaMl then base.set idx (max 0 (base.getD idx 0 + deltaMl)) else base)) :=
  ⟨fun atMs key wakeMins sleepMins h =>
    ⟨rhythm_code_eq_spec atMs key wakeMins sleepMins h,
      rhythm_end_is_four atMs key wakeMins sleepMins h⟩,
   updateDailyLogRhythm_hits⟩

/-- Witness for C9 at the default window (day 0, wake 480, sleep 1320)
and the instant 10:00. -/
theorem rhythm_segment_spec_witness :
    (0 < (getHydrationWindowBoundsForDayKey 0 480 1320).2 -
        (getHydrationWindowBoundsForDayKey 0 480 1320).1) ∧
    getRhythmWindowIndexForDayKey 36000000 0 480 1320 =
      specSegmentIndex 36000000 0 480 1320 :=
  ⟨by decide, (rhythm_segment_spec.1 36000000 0 480 1320 (by decide)).1⟩

/-! ### C7: four tracked empties reach the goal -/

lemma track_step0 (s : AppState)
    (hg : s.goalML = 2000) (hb : s.bottleML = 500) (hw : s.wakeMins = 480)
    (hsl : s.sleepMins = 1320) (hk : s.dayKey = 0) (hr : s.remaining = 1)
    (hc : s.carryML = 0) (he : s.extraML = 0) (hcb : s.completedBottles = 0) :
    (setRemaining s 36000000 0 (some ActionTag.track)).goalML = 2000 ∧
    (setRemaining s 36000000 0 (some ActionTag.track)).bottleML = 500 ∧
    (setRemaining s 36000000 0 (some ActionTag.track)).wakeMins = 480 ∧
    (setRemaining s 36000000 0 (some ActionTag.track)).sleepMins = 1320 ∧
    (setRemaining s 36000000 0 (some ActionTag.track)).dayKey = 0 ∧
    (setRemaining s 36000000 0 (some ActionTag.track)).completedBottles = 1 ∧
    (setRemaining s 36000000 0 (some ActionTag.track)).remaining = 1 ∧
    (setRemaining s 36000000 0 (some ActionTag.track)).carryML = 0 ∧
    (setRemaining s 36000000 0 (some ActionTag.track)).extraML = 0 ∧
    (setRemaining s 36000000 0 (some ActionTag.track)).celebrate =
      some ⟨CelebrateType.bottle, 25, 500⟩ := by
  have hcast : ((s.wakeMins : ℤ) : ℚ) = 480 := by rw [hw]; norm_num
  have htoday : dayKeyByWake 36000000 (s.wakeMins : ℚ) = 0 := by
    rw [hcast, dayKeyByWake_36e6]
  simp only [setRemaining]
  rw [htoday, if_neg (not_not_intro hk)]
  norm_num [advanceBottle, totalConsumedFromState, clamp, ceilDiv, jsRound,
    hg, hb, hw, hsl, hk, hr, hc, he, hcb]

lemma track_step1 (s : AppState)
    (hg : s.goalML = 2000) (hb : s.bottleML = 500) (hw : s.wakeMins = 480)
    (hsl : s.sleepMins = 1320) (hk : s.dayKey = 0) (hr : s.remaining = 1)
    (hc : s.carryML = 0) (he : s.extraML = 0) (hcb : s.completedBottles = 1) :
    (setRemaining s 36000000 0 (some ActionTag.track)).goalML = 2000 ∧
    (setRemaining s 36000000 0 (some ActionTag.track)).bottleML = 500 ∧
    (setRemaining s 36000000 0 (some ActionTag.track)).wakeMins = 480 ∧
    (setRemaining s 36000000 0 (some ActionTag.track)).sleepMins = 1320 ∧
    (setRemaining s 36000000 0 (some ActionTag.track)).dayKey = 0 ∧
    (setRemaining s 36000000 0 (some ActionTag.track)).completedBottles = 2 ∧
    (setRemaining s 36000000 0 (some ActionTag.track)).remaining = 1 ∧
    (setRemaining s 36000000 0 (some ActionTag.track)).carryML = 0 ∧
    (setRemaining s 36000000 0 (some ActionTag.track)).extraML = 0 ∧
    (setRemaining s 36000000 0 (some ActionTag.track)).celebrate =
      some ⟨CelebrateType.bottle, 50, 1000⟩ := by
  have hcast : ((s.wakeMins : ℤ) : ℚ) = 480 := by rw [hw]; norm_num
  have htoday : dayKeyByWake 36000000 (s.wakeMins : ℚ) = 0 := by
    rw [hcast, dayKeyByWake_36e6]
  simp only [setRemaining]
  rw [htoday, if_neg (not_not_intro hk)]
  norm_num [advanceBottle, totalConsumedFromState, clamp, ceilDiv, jsRound,
    hg, hb, hw, hsl, hk, hr, hc, he, hcb]


lemma track_step2 (s : AppState)
    (hg : s.goalML = 2000) (hb : s.bottleML = 500) (hw : s.wakeMins = 480)
    (hsl : s.sleepMins = 1320) (hk : s.dayKey = 0) (hr : s.remaining = 1)
    (hc : s.carryML = 0) (he : s.extraML = 0) (hcb : s.completedBottles = 2) :
    (setRemaining s 36000000 0 (some ActionTag.track)).goalML = 2000 ∧
    (setRemaining s 36000000 0 (some ActionTag.track)).bottleML = 500 ∧
    (setRemaining s 36000000 0 (some ActionTag.track)).wakeMins = 480 ∧
    (setRemaining s 36000000 0 (some ActionTag.track)).sleepMins = 1320 ∧
    (setRemaining s 36000000 0 (some ActionTag.track)).dayKey = 0 ∧
    (setRemaining s 36000000 0 (some ActionTag.track)).completedBottles = 3 ∧
    (setRemaining s 36000000 0 (some ActionTag.track)).remaining = 1 ∧
    (setRemaining s 36000000 0 (some ActionTag.track)).carryML = 0 ∧
    (setRemaining s 36000000 0 (some ActionTag.track)).extraML = 0 ∧
    (setRemaining s 36000000 0 (some ActionTag.track)).celebrate =
      some ⟨CelebrateType.bottle, 75, 1500⟩ := by
  have hcast : ((s.wakeMins : ℤ) : ℚ) = 480 := by rw [hw]; norm_num
  have htoday : dayKeyByWake 36000000 (s.wakeMins : ℚ) = 0 := by
    rw [hcast, dayKeyByWake_36e6]
  simp only [setRemaining]
  rw [htoday, if_neg (not_not_intro hk)]
  norm_num [advanceBottle, totalConsumedFromState, clamp, ceilDiv, jsRound,
    hg, hb, hw, hsl, hk, hr, hc, he, hcb]


lemma track_step3 (s : AppState)
    (hg : s.goalML = 2000) (hb : s.bottleML = 500) (hw : s.wakeMins = 480)
    (hsl : s.sleepMins = 1320) (hk : s.dayKey = 0) (hr : s.remaining = 1)
    (hc : s.carryML = 0) (he : s.extraML = 0) (hcb : s.completedBottles = 3) :
    (setRemaining s 36000000 0 (some ActionTag.track)).goalML = 2000 ∧
    (setRemaining s 36000000 0 (some ActionTag.track)).bottleML = 500 ∧
    (setRemaining s 36000000 0 (some ActionTag.track)).wakeMins = 480 ∧
    (setRemaining s 36000000 0 (some ActionTag.track)).sleepMins = 1320 ∧
    (setRemaining s 36000000 0 (some ActionTag.track)).dayKey = 0 ∧
    (setRemaining s 36000000 0 (some ActionTag.track)).completedBottles = 4 ∧
    (setRemaining s 36000000 0 (some ActionTag.track)).remaining = 1 ∧
    (setRemaining s 36000000 0 (some ActionTag.track)).carryML = 0 ∧
    (setRemaining s 36000000 0 (some ActionTag.track)).extraML = 0 ∧
    (setRemaining s 36000000 0 (some ActionTag.track)).celebrate =
      some ⟨CelebrateType.goal, 100, 2000⟩ := by
  have hcast : ((s.wakeMins : ℤ) : ℚ) = 480 := by rw [hw]; norm_num
  have htoday : dayKeyByWake 36000000 (s.wakeMins : ℚ) = 0 := by
    rw [hcast, dayKeyByWake_36e6]
  simp only [setRemaining]
  rw [htoday, if_neg (not_not_intro hk)]
  norm_num [advanceBottle, totalConsumedFromState, clamp, ceilDiv, jsRound,
    hg, hb, hw, hsl, hk, hr, hc, he, hcb]


lemma track_step4 (s : AppState)
    (hg : s.goalML = 2000) (hb : s.bottleML = 500) (hw : s.wakeMins = 480)
    (hsl : s.sleepMins = 1320) (hk : s.dayKey = 0) (hr : s.remaining = 1)
    (hc : s.carryML = 0) (he : s.extraML = 0) (hcb : s.completedBottles = 4) :
    (setRemaining s 36000000 0 (some ActionTag.track)).goalML = 2000 ∧
    (setRemaining s 36000000 0 (some ActionTag.track)).bottleML = 500 ∧
    (setRemaining s 36000000 0 (some ActionTag.track)).wakeMins = 480 ∧
    (setRemaining s 36000000 0 (some ActionTag.track)).sleepMins = 1320 ∧
    (setRemaining s 36000000 0 (some ActionTag.track)).dayKey = 0 ∧
    (setRemaining s 36000000 0 (some ActionTag.track)).completedBottles = 4 ∧
    (setRemaining s 36000000 0 (some ActionTag.track)).remaining = 1 ∧
    (setRemaining s 36000000 0 (some ActionTag.track)).carryML = 0 ∧
    (setRemaining s 36000000 0 (some ActionTag.track)).extraML = 0 ∧
    (setRemaining s 36000000 0 (some ActionTag.track)).celebrate =
      some ⟨CelebrateType.goal, 100, 2000⟩ := by
  have hcast : ((s.wakeMins : ℤ) : ℚ) = 480 := by rw [hw]; norm_num
  have htoday : dayKeyByWake 36000000 (s.wakeMins : ℚ) = 0 := by
    rw [hcast, dayKeyByWake_36e6]
  simp only [setRemaining]
  rw [htoday, if_neg (not_not_intro hk)]
  norm_num [advanceBottle, totalConsumedFromState, clamp, ceilDiv, jsRound,
    hg, hb, hw, hsl, hk, hr, hc, he, hcb]

/-- C7: from the fresh default state (goal 2000, bottle 500), four
`setRemaining 0` calls tagged "track" (bottle completion itself resets
`remaining` to 1 between calls) drive `completedBottles` 0 → 1 → 2 →
3 → 4, never past the cap `ceilDiv(goal, bottle) = 4` (a fifth call
leaves it at 4), make the consumed total exactly 2000, and emit
bottle-type celebrations on the first three calls and a goal-type
celebration on the fourth (goal taking priority over bottle). -/
theorem four_track_empties_reach_goal :
    ceilDiv sampleState.goalML sampleState.bottleML = 4 ∧
    (setRemaining sampleState 36000000 0 (some ActionTag.track)).completedBottles = 1 ∧
    (setRemaining (setRemaining sampleState 36000000 0 (some ActionTag.track)) 36000000 0 (some ActionTag.track)).completedBottles = 2 ∧
    (setRemaining (setRemaining (setRemaining sampleState 36000000 0 (some ActionTag.track)) 36000000 0 (some ActionTag.track)) 36000000 0 (some ActionTag.track)).completedBottles = 3 ∧
    (setRemaining (setRemaining (setRemaining (setRemaining sampleState 36000000 0 (some ActionTag.track)) 36000000 0 (some ActionTag.track)) 36000000 0 (some ActionTag.track)) 36000000 0 (some ActionTag.track)).completedBottles = 4 ∧
    (setRemaining (setRemaining (setRemaining (setRemaining (setRemaining sampleState 36000000 0 (some ActionTag.track)) 36000000 0 (some ActionTag.track)) 36000000 0 (some ActionTag.track)) 36000000 0 (some ActionTag.track)) 36000000 0 (some ActionTag.track)).completedBottles = 4 ∧
    totalConsumedFromState (setRemaining (setRemaining (setRemaining (setRemaining sampleState 36000000 0 (some ActionTag.track)) 36000000 0 (some ActionTag.track)) 36000000 0 (some ActionTag.track)) 36000000 0 (some ActionTag.track)) = 2000 ∧
    (setRemaining sampleState 36000000 0 (some ActionTag.track)).celebrate = some ⟨CelebrateType.bottle, 25, 500⟩ ∧
    (setRemaining (setRemaining sampleState 36000000 0 (some ActionTag.track)) 36000000 0 (some ActionTag.track)).celebrate = some ⟨CelebrateType.bottle, 50, 1000⟩ ∧
    (setRemaining (setRemaining (setRemaining sampleState 36000000 0 (some ActionTag.track)) 36000000 0 (some ActionTag.track)) 36000000 0 (some ActionTag.track)).celebrate = some ⟨CelebrateType.bottle, 75, 1500⟩ ∧
    (setRemaining (setRemaining (setRemaining (setRemaining sampleState 36000000 0 (some ActionTag.track)) 36000000 0 (some ActionTag.track)) 36000000 0 (some ActionTag.track)) 36000000 0 (some ActionTag.track)).celebrate = some ⟨CelebrateType.goal, 100, 2000⟩ := by
  obtain ⟨g1, b1, w1, sl1, k1, c1, r1, ca1, e1, cel1⟩ :=
    track_step0 sampleState rfl rfl rfl rfl rfl rfl rfl rfl rfl
  obtain ⟨g2, b2, w2, sl2, k2, c2, r2, ca2, e2, cel2⟩ :=
    track_step1 (setRemaining sampleState 36000000 0 (some ActionTag.track)) g1 b1 w1 sl1 k1 r1 ca1 e1 c1
  obtain ⟨g3, b3, w3, sl3, k3, c3, r3, ca3, e3, cel3⟩ :=
    track_step2 (setRemaining (setRemaining sampleState 36000000 0 (some ActionTag.track)) 36000000 0 (some ActionTag.track)) g2 b2 w2 sl2 k2 r2 ca2 e2 c2
  obtain ⟨g4, b4, w4, sl4, k4, c4, r4, ca4, e4, cel4⟩ :=
    track_step3 (setRemaining (setRemaining (setRemaining sampleState 36000000 0 (some ActionTag.track)) 36000000 0 (some ActionTag.track)) 36000000 0 (some ActionTag.track)) g3 b3 w3 sl3 k3 r3 ca3 e3 c3
  obtain ⟨g5, b5, w5, sl5, k5, c5, r5, ca5, e5, cel5⟩ :=
    track_step4 (setRemaining (setRemaining (setRemaining (setRemaining sampleState 36000000 0 (some ActionTag.track)) 36000000 0 (some ActionTag.track)) 36000000 0 (some ActionTag.track)) 36000000 0 (some ActionTag.track)) g4 b4 w4 sl4 k4 r4 ca4 e4 c4
  have hcons : totalConsumedFromState (setRemaining (setRemaining (setRemaining (setRemaining sampleState 36000000 0 (some ActionTag.track)) 36000000 0 (some ActionTag.track)) 36000000 0 (some ActionTag.track)) 36000000 0 (some ActionTag.track)) = 2000 := by
    unfold totalConsumedFromState
    rw [g4, b4, c4, r4, ca4, e4]
    norm_num [clamp, ceilDiv, jsRound]
  exact ⟨by norm_num [sampleState, ceilDiv], c1, c2, c3, c4, c5, hcons,
    cel1, cel2, cel3, cel4⟩

/-! ### C10: the 429 retry policy of the estimation call -/

/-- C10: on a 429 first response the caller issues exactly one retry
(two requests), sleeping once for the computed wait — the parsed
`Retry-After` when positive, otherwise the capped exponential backoff
`min(20000, 1200·2^(attempt-1))` plus the `[0,450)` jitter (for the
first attempt this wait lies in `[1200, 1650)`, for the second in
`[2400, 2850)`); if the retry is also 429 it throws the typed
rate-limit error carrying that attempt's wait, any other non-2xx retry
throws the generic error carrying the status, and a 2xx retry yields
the parsed body; a non-429 non-2xx first response throws the generic
error with no retry. -/
theorem estimate_429_policy :
    (∀ (r1 r2 : FetchResponse) (j1 j2 now : ℤ),
      r1.status = 429 → 0 ≤ j1 → j1 < 450 → 0 ≤ j2 → j2 < 450 →
      (estimatePercentFull r1 r2 j1 j2 now).requests = 2 ∧
      (estimatePercentFull r1 r2 j1 j2 now).sleeps = [rateLimitWaitMs r1 1 j1 now] ∧
      (∀ ra : ℤ, parseRetryAfterToMs r1.retryAfter now = some ra → 0 < ra →
        rateLimitWaitMs r1 1 j1 now = (ra : ℚ)) ∧
      (parseRetryAfterToMs r1.retryAfter now = none →
        1200 ≤ rateLimitWaitMs r1 1 j1 now ∧ rateLimitWaitMs r1 1 j1 now < 1650) ∧
      (r2.status = 429 →
        (estimatePercentFull r1 r2 j1 j2 now).result =
          Except.error (ScanError.rateLimited (rateLimitWaitMs r2 2 j2 now)) ∧
        (parseRetryAfterToMs r2.retryAfter now = none →
          2400 ≤ rateLimitWaitMs r2 2 j2 now ∧ rateLimitWaitMs r2 2 j2 now < 2850)) ∧
      (r2.status ≠ 429 → ¬ resOk r2 →
        (estimatePercentFull r1 r2 j1 j2 now).result =
          Except.error (ScanError.generic r2.status)) ∧
      (r2.status ≠ 429 → resOk r2 →
        (estimatePercentFull r1 r2 j1 j2 now).result = attemptOutcome r2)) ∧
    (∀ (r1 r2 : FetchResponse) (j1 j2 now : ℤ),
      r1.status ≠ 429 → ¬ resOk r1 →
      (estimatePercentFull r1 r2 j1 j2 now).result =
        Except.error (ScanError.generic r1.status) ∧
      (estimatePercentFull r1 r2 j1 j2 now).requests = 1) := by
  constructor
  · intro r1 r2 j1 j2 now h429 hj1l hj1u hj2l hj2u
    have hj1l' : (0 : ℚ) ≤ (j1 : ℚ) := by exact_mod_cast hj1l
    have hj1u' : (j1 : ℚ) < 450 := by exact_mod_cast hj1u
    have hj2l' : (0 : ℚ) ≤ (j2 : ℚ) := by exact_mod_cast hj2l
    have hj2u' : (j2 : ℚ) < 450 := by exact_mod_cast hj2u
    refine ⟨?_, ?_, ?_, ?_, ?_, ?_, ?_⟩
    · simp only [estimatePercentFull]
      rw [if_pos h429]
      split_ifs <;> rfl
    · simp only [estimatePercentFull]
      rw [if_pos h429]
      split_ifs <;> rfl
    · intro ra hra hpos
      simp only [rateLimitWaitMs]
      rw [hra]
      dsimp only
      rw [if_pos hpos]
    · intro hnone
      simp only [rateLimitWaitMs]
      rw [hnone]
      dsimp only
      norm_num
      exact ⟨by linarith, by linarith⟩
    · intro h2
      constructor
      · simp only [estimatePercentFull]
        rw [if_pos h429, if_pos h2]
      · intro hnone
        simp only [rateLimitWaitMs]
        rw [hnone]
        dsimp only
        norm_num
        exact ⟨by linarith, by linarith⟩
    · intro hne hnok
      simp only [estimatePercentFull]
      rw [if_pos h429, if_neg hne]
      simp only [attemptOutcome]
      rw [if_pos hnok]
    · intro hne hok
      simp only [estimatePercentFull]
      rw [if_pos h429, if_neg hne]
  · intro r1 r2 j1 j2 now h1ne h1nok
    constructor
    · simp only [estimatePercentFull]
      rw [if_neg h1ne]
      simp only [attemptOutcome]
      rw [if_pos h1nok]
    · simp only [estimatePercentFull]
      rw [if_neg h1ne]

/-- A rate-limited first response carrying `Retry-After: 2`. -/
def resp429 : FetchResponse := { status := 429, retryAfter := some (RetryAfterHeader.seconds 2) }

/-- A successful retry response with `percent_full: 67`. -/
def resp200 : FetchResponse := { status := 200, bodyPercentFull := some 67 }

/-- Witness for C10: with `Retry-After: 2` and a successful retry the
caller makes two requests, sleeps exactly 2000 ms once, and returns
67. -/
theorem estimate_429_policy_witness :
    (resp429.status = 429 ∧ (0 : ℤ) ≤ 0 ∧ (0 : ℤ) < 450) ∧
    (estimatePercentFull resp429 resp200 0 0 0).requests = 2 ∧
    (estimatePercentFull resp429 resp200 0 0 0).sleeps = [rateLimitWaitMs resp429 1 0 0] ∧
    rateLimitWaitMs resp429 1 0 0 = 2000 ∧
    (estimatePercentFull resp429 resp200 0 0 0).result = Except.ok 67 := by
  obtain ⟨hreq, hsleeps, hra, _, _, _, hok⟩ :=
    estimate_429_policy.1 resp429 resp200 0 0 0 rfl le_rfl (by norm_num) le_rfl (by norm_num)
  have hparse : parseRetryAfterToMs resp429.retryAfter 0 = some 2000 := by
    norm_num [resp429, parseRetryAfterToMs, jsRound]
  have hwait : rateLimitWaitMs resp429 1 0 0 = 2000 := by
    rw [hra 2000 hparse (by norm_num)]
    norm_num
  have hres : (estimatePercentFull resp429 resp200 0 0 0).result = attemptOutcome resp200 :=
    hok (by norm_num [resp200]) (by norm_num [resOk, resp200])
  have hout : attemptOutcome resp200 = Except.ok 67 := by
    norm_num [attemptOutcome, resOk, resp200, clamp]
  exact ⟨⟨rfl, le_rfl, by norm_num⟩, hreq, hsleeps, hwait, by rw [hres, hout]⟩

/-- Counterexample to C8 as stated ("changes only extraML … and
appends a history entry"): in `src/unnamed/part_001`, `addExtra` also
rewrites the current day's `dailyLog` entry (rhythm attribution,
consumed total, `lastEventAt`) on every call — starting from the fresh
sample state with an empty log, `addExtra 250` leaves `dailyLog`
non-empty. -/
theorem addExtra_changes_dailyLog :
    sampleState.dayKey = dayKeyByWake 36000000 (sampleState.wakeMins : ℚ) ∧
    (addExtra sampleState 36000000 250).dailyLog ≠ sampleState.dailyLog := by
  refine ⟨sampleState_same_day, ?_⟩
  have h1 : (addExtra sampleState 36000000 250).dailyLog ≠ [] := by
    simp only [addExtra, updateDailyLogRhythm]
    rw [if_neg (not_not_intro sampleState_same_day)]
    exact upsertLog_ne_nil _ _ _
  have h2 : sampleState.dailyLog = [] := rfl
  rw [h2]
  exact h1
